import Mathlib

/-!
# SceneManager texture slot cache and render pass

A shallow embedding of
`7-1_FinalProjectMilestones/Source/SceneManager.cpp`: the constructor,
`CreateGLTexture`, `BindGLTextures`, `DestroyGLTextures`, `FindTextureSlot`,
`SetShaderTexture`, `LoadSceneTextures`, `SetTransformations` and the part of
`RenderScene` up to the trim around the room.

A `float` is kept as the rational number its literal denotes and arithmetic
on it is exact (rounding is not modelled); the scalar functions of GLM and
libm (`radians`, `cos`, `sin`, `inversesqrt`) are parameters.

The object's fields are a record; the collaborators the methods talk to
(the OpenGL context, the stb_image decoder, the console) are explicit state,
each with a log of the calls made on it.  A method is a function from state
to `Option` state: `none` stands for an access to `m_textureIDs` outside the
table (undefined behaviour in C++).
-/

/-! ## Data model -/

/-- Modelled from the spec: one slot of the texture table, `{ tag, handle }`.
The record is declared in `SceneManager.h`, which is not among the sources;
the two fields are the ones `SceneManager.cpp` reads and writes (`.tag`, a
`std::string`, and `.ID`, a `GLuint`). -/
structure TEXTURE_INFO where
  tag : String
  ID : Nat
deriving DecidableEq

/-- The GLM type `glm::vec3` over the number type `R`. -/
structure glm.vec3 (R : Type) where
  x : R
  y : R
  z : R
deriving DecidableEq

/-- The scalar functions of GLM and libm that the transform code relies on:
`glm::radians`, `cos`, `sin` and `glm::inversesqrt`. -/
structure glm.ScalarLib (R : Type) where
  radians : R → R
  cos : R → R
  sin : R → R
  inversesqrt : R → R

/-- The call `glm::scale(v)`: the scaling matrix (rows listed top to bottom,
acting on column vectors). -/
def glm.scale {R : Type} [CommRing R] (v : glm.vec3 R) : Matrix (Fin 4) (Fin 4) R :=
  !![v.x, 0, 0, 0; 0, v.y, 0, 0; 0, 0, v.z, 0; 0, 0, 0, 1]

/-- The call `glm::translate(v)`: the translation matrix, `v` in the last column. -/
def glm.translate {R : Type} [CommRing R] (v : glm.vec3 R) : Matrix (Fin 4) (Fin 4) R :=
  !![1, 0, 0, v.x; 0, 1, 0, v.y; 0, 0, 1, v.z; 0, 0, 0, 1]

/-- The call `glm::normalize(v)`, `v * inversesqrt(dot(v, v))`. -/
def glm.normalize {R : Type} [CommRing R] (lib : glm.ScalarLib R) (v : glm.vec3 R) :
    glm.vec3 R :=
  { x := v.x * lib.inversesqrt (v.x * v.x + v.y * v.y + v.z * v.z)
    y := v.y * lib.inversesqrt (v.x * v.x + v.y * v.y + v.z * v.z)
    z := v.z * lib.inversesqrt (v.x * v.x + v.y * v.y + v.z * v.z) }

/-- The call `glm::rotate(angle, v)` (angle in radians): GLM normalises the
axis, sets `temp = (1 - cos angle) * axis` and fills the rotation block
`Rotate[col][row]`; entry `Rotate[c][r]` stands in row `r`, column `c` here. -/
def glm.rotate {R : Type} [CommRing R] (lib : glm.ScalarLib R) (angle : R) (v : glm.vec3 R) :
    Matrix (Fin 4) (Fin 4) R :=
  let c := lib.cos angle
  let s := lib.sin angle
  let axis := glm.normalize lib v
  let temp : glm.vec3 R :=
    { x := (1 - c) * axis.x, y := (1 - c) * axis.y, z := (1 - c) * axis.z }
  !![c + temp.x * axis.x, temp.y * axis.x - s * axis.z, temp.z * axis.x + s * axis.y, 0;
     temp.x * axis.y + s * axis.z, c + temp.y * axis.y, temp.z * axis.y - s * axis.x, 0;
     temp.x * axis.z - s * axis.y, temp.y * axis.z + s * axis.x, c + temp.z * axis.z, 0;
     0, 0, 0, 1]

/-- A value pushed to a named uniform. -/
inductive UniformValue where
  | intValue (value : Int)
  | sampler2DValue (value : Int)
  | floatValue (value : ℚ)
  | vec3Value (value : glm.vec3 ℚ)
  | mat4Value (value : Matrix (Fin 4) (Fin 4) ℚ)
deriving DecidableEq

/-- Modelled from the spec: the Shader Parameter Interface, a key/value
uniform-setting surface addressed by name.  `ShaderManager` is not among the
sources; it is kept as the list of uniform writes made so far, oldest first. -/
structure ShaderManager where
  uniforms : List (String × UniformValue)
deriving DecidableEq

/-- The call `setIntValue(name, value)` of the shader manager. -/
def ShaderManager.setIntValue (name : String) (value : Int) (sh : ShaderManager) :
    ShaderManager :=
  { sh with uniforms := sh.uniforms ++ [(name, UniformValue.intValue value)] }

/-- The call `setSampler2DValue(name, slot)` of the shader manager. -/
def ShaderManager.setSampler2DValue (name : String) (slot : Int) (sh : ShaderManager) :
    ShaderManager :=
  { sh with uniforms := sh.uniforms ++ [(name, UniformValue.sampler2DValue slot)] }

/-- The call `setFloatValue(name, value)` of the shader manager. -/
def ShaderManager.setFloatValue (name : String) (value : ℚ) (sh : ShaderManager) :
    ShaderManager :=
  { sh with uniforms := sh.uniforms ++ [(name, UniformValue.floatValue value)] }

/-- The call `setVec3Value(name, value)` of the shader manager. -/
def ShaderManager.setVec3Value (name : String) (value : glm.vec3 ℚ) (sh : ShaderManager) :
    ShaderManager :=
  { sh with uniforms := sh.uniforms ++ [(name, UniformValue.vec3Value value)] }

/-- The call `setMat4Value(name, value)` of the shader manager. -/
def ShaderManager.setMat4Value (name : String) (value : Matrix (Fin 4) (Fin 4) ℚ)
    (sh : ShaderManager) : ShaderManager :=
  { sh with uniforms := sh.uniforms ++ [(name, UniformValue.mat4Value value)] }

/-- The value a uniform holds after a list of writes (oldest first): the one
of the last write to that name, if there is any. -/
def UniformValue.held (name : String) (writes : List (String × UniformValue)) :
    Option UniformValue :=
  (writes.reverse.find? (fun w => w.1 = name)).map (fun w => w.2)

/-- The fields of a `SceneManager` object that the texture methods use.
`m_pShaderManager` is a pointer (`none` is `NULL`), `m_textureIDs` the slot
table and `m_loadedTextures` the `int` count of occupied slots.  The count is
only ever incremented below 16 and reset to 0, so no wrap-around is modelled. -/
structure SceneManager where
  m_pShaderManager : Option ShaderManager
  m_textureIDs : List TEXTURE_INFO
  m_loadedTextures : Int
deriving DecidableEq

/-- The OpenGL constants used by the texture code. -/
inductive GLenum where
  | GL_TEXTURE_WRAP_S | GL_TEXTURE_WRAP_T | GL_TEXTURE_MIN_FILTER | GL_TEXTURE_MAG_FILTER
  | GL_REPEAT | GL_LINEAR_MIPMAP_LINEAR | GL_LINEAR | GL_UNPACK_ALIGNMENT
  | GL_RGB8 | GL_RGB | GL_RGBA8 | GL_RGBA
deriving DecidableEq

/-- One call made on the OpenGL context (texture target `GL_TEXTURE_2D`). -/
inductive GLCall where
  | genTextures (name : Nat)
  | bindTexture (texture : Nat)
  | texParameteri (pname : GLenum) (param : GLenum)
  | pixelStorei (pname : GLenum) (param : Int)
  | texImage2D (internalformat : GLenum) (width height : Int) (format : GLenum)
  | generateMipmap
  | activeTexture (unit : Nat)
  | deleteTextures (name : Nat)
deriving DecidableEq

/-- The texture state of the OpenGL context: the texture names in use
(generated and not deleted), the selected texture unit, the texture bound to
`GL_TEXTURE_2D` on each unit, and the log of calls, oldest first. -/
structure GLContext where
  textures : List Nat
  activeTexture : Nat
  binding2D : Nat → Nat
  calls : List GLCall

/-- The call `glGenTextures(1, &textureID)`; `name` is the name the driver
hands out. -/
def glGenTextures (name : Nat) (gl : GLContext) : GLContext :=
  { gl with textures := gl.textures ++ [name], calls := gl.calls ++ [GLCall.genTextures name] }

/-- The call `glBindTexture(GL_TEXTURE_2D, texture)`: binds on the selected unit. -/
def glBindTexture (texture : Nat) (gl : GLContext) : GLContext :=
  { gl with
    binding2D := fun u => if u = gl.activeTexture then texture else gl.binding2D u
    calls := gl.calls ++ [GLCall.bindTexture texture] }

/-- The call `glTexParameteri(GL_TEXTURE_2D, pname, param)`. -/
def glTexParameteri (pname param : GLenum) (gl : GLContext) : GLContext :=
  { gl with calls := gl.calls ++ [GLCall.texParameteri pname param] }

/-- The call `glPixelStorei(pname, param)`. -/
def glPixelStorei (pname : GLenum) (param : Int) (gl : GLContext) : GLContext :=
  { gl with calls := gl.calls ++ [GLCall.pixelStorei pname param] }

/-- The call `glTexImage2D(GL_TEXTURE_2D, 0, internalformat, width, height, 0,
format, GL_UNSIGNED_BYTE, image)`. -/
def glTexImage2D (internalformat : GLenum) (width height : Int) (format : GLenum)
    (gl : GLContext) : GLContext :=
  { gl with calls := gl.calls ++ [GLCall.texImage2D internalformat width height format] }

/-- The call `glGenerateMipmap(GL_TEXTURE_2D)`. -/
def glGenerateMipmap (gl : GLContext) : GLContext :=
  { gl with calls := gl.calls ++ [GLCall.generateMipmap] }

/-- The call `glActiveTexture(GL_TEXTURE0 + unit)`. -/
def glActiveTexture (unit : Nat) (gl : GLContext) : GLContext :=
  { gl with activeTexture := unit, calls := gl.calls ++ [GLCall.activeTexture unit] }

/-- The call `glDeleteTextures(1, &name)`: the name is released and every unit
it was bound on reverts to texture 0. -/
def glDeleteTextures (name : Nat) (gl : GLContext) : GLContext :=
  { gl with
    textures := gl.textures.filter (fun t => t ≠ name)
    binding2D := fun u => if gl.binding2D u = name then 0 else gl.binding2D u
    calls := gl.calls ++ [GLCall.deleteTextures name] }

/-- What `stbi_load` reports for a decoded image (the pixel buffer itself is
only handed on to OpenGL). -/
structure Image where
  width : Int
  height : Int
  colorChannels : Int
deriving DecidableEq

/-- One call made on the stb_image decoder. -/
inductive StbiCall where
  | set_flip_vertically_on_load (flag : Bool)
  | load (filename : String)
  | image_free
deriving DecidableEq

/-- One line written to `std::cout`. -/
inductive ConsoleLine where
  | textureLimitReached (filename : String)
  | failedToLoadImage (filename : String)
  | loadedImage (filename : String) (width height colorChannels : Int)
  | unsupported (colorChannels : Int)
  | noTexturesToDestroy
  | texturesDestroyed
  | loadingTextures
  | allTexturesLoaded
deriving DecidableEq

/-- The object together with the collaborators its methods act on. -/
structure System where
  scene : SceneManager
  gl : GLContext
  stbi : List StbiCall
  cout : List ConsoleLine

/-! ## Operations -/

/-- The constructor `SceneManager::SceneManager(pShaderManager)`: stores the
shader manager pointer, fills the 16 slots with tag `"/0"` and handle 0, and
sets the count to 0.  (`m_basicMeshes`, which the texture methods never
touch, is kept beside the object in `Renderer`.) -/
def SceneManager.construct (pShaderManager : Option ShaderManager) : SceneManager :=
  { m_pShaderManager := pShaderManager
    m_textureIDs := List.replicate 16 { tag := "/0", ID := 0 }
    m_loadedTextures := 0 }

/-- An assignment to a field of `m_textureIDs[i]`; `none` when `i` is outside
the table. -/
def SceneManager.slotWrite (ids : List TEXTURE_INFO) (i : Int)
    (f : TEXTURE_INFO → TEXTURE_INFO) : Option (List TEXTURE_INFO) :=
  if 0 ≤ i then
    match ids[i.toNat]? with
    | some t => some (ids.set i.toNat (f t))
    | none => none
  else none

/-- The method `CreateGLTexture(filename, tag)`.  `image` is what `stbi_load`
returns for `filename` (`none` is the null pointer) and `textureID` the name
`glGenTextures` writes; both are read only if the call gets that far. -/
def SceneManager.CreateGLTexture (image : Option Image) (textureID : Nat)
    (filename tag : String) (s : System) : Option (Bool × System) :=
  if s.scene.m_loadedTextures ≥ 16 then
    some (false, { s with cout := s.cout ++ [ConsoleLine.textureLimitReached filename] })
  else
    let stbi1 := s.stbi ++ [StbiCall.set_flip_vertically_on_load true, StbiCall.load filename]
    match image with
    | none =>
      some (false, { s with
        stbi := stbi1
        cout := s.cout ++ [ConsoleLine.failedToLoadImage filename] })
    | some img =>
      let cout1 := s.cout ++
        [ConsoleLine.loadedImage filename img.width img.height img.colorChannels]
      let gl1 := glBindTexture textureID (glGenTextures textureID s.gl)
      let gl2 := glTexParameteri GLenum.GL_TEXTURE_MAG_FILTER GLenum.GL_LINEAR
        (glTexParameteri GLenum.GL_TEXTURE_MIN_FILTER GLenum.GL_LINEAR_MIPMAP_LINEAR
        (glTexParameteri GLenum.GL_TEXTURE_WRAP_T GLenum.GL_REPEAT
        (glTexParameteri GLenum.GL_TEXTURE_WRAP_S GLenum.GL_REPEAT gl1)))
      let gl3 := glPixelStorei GLenum.GL_UNPACK_ALIGNMENT 1 gl2
      let uploaded : Option GLContext :=
        if img.colorChannels = 3 then
          some (glTexImage2D GLenum.GL_RGB8 img.width img.height GLenum.GL_RGB gl3)
        else if img.colorChannels = 4 then
          some (glTexImage2D GLenum.GL_RGBA8 img.width img.height GLenum.GL_RGBA gl3)
        else none
      match uploaded with
      | none =>
        some (false, { s with
          gl := gl3
          stbi := stbi1 ++ [StbiCall.image_free]
          cout := cout1 ++ [ConsoleLine.unsupported img.colorChannels] })
      | some gl4 =>
        let gl5 := glBindTexture 0 (glGenerateMipmap gl4)
        match SceneManager.slotWrite s.scene.m_textureIDs s.scene.m_loadedTextures
            (fun t => { t with ID := textureID }) with
        | none => none
        | some ids1 =>
          match SceneManager.slotWrite ids1 s.scene.m_loadedTextures
              (fun t => { t with tag := tag }) with
          | none => none
          | some ids2 =>
            some (true, { s with
              scene := { s.scene with
                m_textureIDs := ids2
                m_loadedTextures := s.scene.m_loadedTextures + 1 }
              gl := gl5
              stbi := stbi1 ++ [StbiCall.image_free]
              cout := cout1 })

/-- The loop of `BindGLTextures`, `for (int i = 0; i < m_loadedTextures; i++)`:
the first argument counts the iterations still to run, the second is `i`. -/
def SceneManager.BindGLTextures.loop (ids : List TEXTURE_INFO) :
    Nat → Nat → GLContext → Option GLContext
  | 0, _, gl => some gl
  | k + 1, i, gl =>
    match ids[i]? with
    | none => none
    | some t =>
      SceneManager.BindGLTextures.loop ids k (i + 1) (glBindTexture t.ID (glActiveTexture i gl))

/-- The method `BindGLTextures()`. -/
def SceneManager.BindGLTextures (s : System) : Option System :=
  match SceneManager.BindGLTextures.loop s.scene.m_textureIDs
      s.scene.m_loadedTextures.toNat 0 s.gl with
  | none => none
  | some gl => some { s with gl := gl }

/-- The loop of `DestroyGLTextures`: the first argument counts the iterations
still to run, the second is `i`. -/
def SceneManager.DestroyGLTextures.loop :
    Nat → Nat → List TEXTURE_INFO → GLContext → Option (List TEXTURE_INFO × GLContext)
  | 0, _, ids, gl => some (ids, gl)
  | k + 1, i, ids, gl =>
    match ids[i]? with
    | none => none
    | some t =>
      if t.ID ≠ 0 then
        SceneManager.DestroyGLTextures.loop k (i + 1) (ids.set i { t with ID := 0 })
          (glDeleteTextures t.ID gl)
      else
        SceneManager.DestroyGLTextures.loop k (i + 1) ids gl

/-- The method `DestroyGLTextures()`. -/
def SceneManager.DestroyGLTextures (s : System) : Option System :=
  if s.scene.m_loadedTextures ≤ 0 then
    some { s with cout := s.cout ++ [ConsoleLine.noTexturesToDestroy] }
  else
    match SceneManager.DestroyGLTextures.loop s.scene.m_loadedTextures.toNat 0
        s.scene.m_textureIDs s.gl with
    | none => none
    | some (ids, gl) =>
      some { s with
        scene := { s.scene with m_textureIDs := ids, m_loadedTextures := 0 }
        gl := gl
        cout := s.cout ++ [ConsoleLine.texturesDestroyed] }

/-- The loop of `FindTextureSlot`: the first argument counts the iterations
still to run, the second is `i`; falling out of the loop returns -1. -/
def SceneManager.FindTextureSlot.loop (ids : List TEXTURE_INFO) (tag : String) :
    Nat → Nat → Option Int
  | 0, _ => some (-1)
  | k + 1, i =>
    match ids[i]? with
    | none => none
    | some t =>
      if t.tag = tag then some (i : Int)
      else SceneManager.FindTextureSlot.loop ids tag k (i + 1)

/-- The method `FindTextureSlot(tag)`. -/
def SceneManager.FindTextureSlot (m : SceneManager) (tag : String) : Option Int :=
  SceneManager.FindTextureSlot.loop m.m_textureIDs tag m.m_loadedTextures.toNat 0

/-- The method `SetShaderTexture(tag)`; `setIntValue("bUseTexture", true)`
passes the `bool` as the `int` 1. -/
def SceneManager.SetShaderTexture (tag : String) (s : System) : Option System :=
  match s.scene.m_pShaderManager with
  | none => some s
  | some sh =>
    match SceneManager.FindTextureSlot s.scene tag with
    | none => none
    | some slot =>
      if slot ≠ -1 then
        some { s with
          scene := { s.scene with
            m_pShaderManager := some
              (ShaderManager.setSampler2DValue "objectTexture" slot
                (ShaderManager.setIntValue "bUseTexture" 1 sh)) } }
      else some s

/-! ## Cache states and call sequences -/

/-- A cache state of the data model: a table of 16 slots and a count of
occupied slots between 0 and 16. -/
def SceneManager.WellFormed (m : SceneManager) : Prop :=
  m.m_textureIDs.length = 16 ∧ 0 ≤ m.m_loadedTextures ∧ m.m_loadedTextures ≤ 16

/-- The non-zero handles held in the occupied slots 0, …, count-1, in slot
order. -/
def SceneManager.occupiedHandles (m : SceneManager) : List Nat :=
  ((m.m_textureIDs.take m.m_loadedTextures.toNat).map (fun t => t.ID)).filter (fun h => h ≠ 0)

/-- The state right after the constructor ran, the collaborators being in any
state. -/
def System.constructed (pShaderManager : Option ShaderManager) (gl : GLContext)
    (stbi : List StbiCall) (cout : List ConsoleLine) : System :=
  { scene := SceneManager.construct pShaderManager, gl := gl, stbi := stbi, cout := cout }

/-- An OpenGL context on which no texture call has been made yet. -/
def GLContext.initial : GLContext :=
  { textures := [], activeTexture := 0, binding2D := fun _ => 0, calls := [] }

/-- One `CreateGLTexture(filename, tag)` request, with what the decoder and
the driver answer to it. -/
structure LoadRequest where
  image : Option Image
  textureID : Nat
  filename : String
  tag : String

/-- A sequence of `CreateGLTexture` requests run one after the other; the
result lists what each request returned. -/
def SceneManager.createAll : List LoadRequest → System → Option (List Bool × System)
  | [], s => some ([], s)
  | q :: qs, s =>
    match SceneManager.CreateGLTexture q.image q.textureID q.filename q.tag s with
    | none => none
    | some (b, s1) =>
      match SceneManager.createAll qs s1 with
      | none => none
      | some (bs, s2) => some (b :: bs, s2)

/-- A call of one of the five texture methods. -/
inductive MethodCall where
  | CreateGLTexture (image : Option Image) (textureID : Nat) (filename tag : String)
  | BindGLTextures
  | DestroyGLTextures
  | FindTextureSlot (tag : String)
  | SetShaderTexture (tag : String)

/-- Runs one method call (the value a method returns is dropped). -/
def MethodCall.run : MethodCall → System → Option System
  | MethodCall.CreateGLTexture image textureID filename tag, s =>
    (SceneManager.CreateGLTexture image textureID filename tag s).map Prod.snd
  | MethodCall.BindGLTextures, s => SceneManager.BindGLTextures s
  | MethodCall.DestroyGLTextures, s => SceneManager.DestroyGLTextures s
  | MethodCall.FindTextureSlot tag, s => (SceneManager.FindTextureSlot s.scene tag).map (fun _ => s)
  | MethodCall.SetShaderTexture tag, s => SceneManager.SetShaderTexture tag s

/-- Runs a sequence of method calls, stopping with `none` at the first call
that leaves the table. -/
def MethodCall.runAll : List MethodCall → System → Option System
  | [], s => some s
  | c :: cs, s =>
    match MethodCall.run c s with
    | none => none
    | some s1 => MethodCall.runAll cs s1

/-! ## Loading the scene textures, transforms and the render pass -/

/-- The twelve `CreateGLTexture(filename, tag)` calls of `LoadSceneTextures`,
in source order; `answer i` is what the decoder returns and the name the
driver would hand out on the call number `i`. -/
def SceneManager.LoadSceneTextures.requests (answer : Nat → Option Image × Nat) :
    List LoadRequest :=
  [ { image := (answer 0).1, textureID := (answer 0).2,
      filename := "textures/cake.jpg", tag := "cake" },
    { image := (answer 1).1, textureID := (answer 1).2,
      filename := "textures/floor.jpg", tag := "floor" },
    { image := (answer 2).1, textureID := (answer 2).2,
      filename := "textures/fridge.jpg", tag := "fridge" },
    { image := (answer 3).1, textureID := (answer 3).2,
      filename := "textures/wall.jpg", tag := "wall" },
    { image := (answer 4).1, textureID := (answer 4).2,
      filename := "textures/wood.jpg", tag := "wood" },
    { image := (answer 5).1, textureID := (answer 5).2,
      filename := "textures/grass.jpg", tag := "grass" },
    { image := (answer 6).1, textureID := (answer 6).2,
      filename := "textures/sky.jpg", tag := "sky" },
    { image := (answer 7).1, textureID := (answer 7).2,
      filename := "textures/ceiling.jpg", tag := "ceiling" },
    { image := (answer 8).1, textureID := (answer 8).2,
      filename := "textures/ceiling.jpg", tag := "" },
    { image := (answer 9).1, textureID := (answer 9).2,
      filename := "textures/paper.jpg", tag := "paper" },
    { image := (answer 10).1, textureID := (answer 10).2,
      filename := "textures/paper2.jpg", tag := "paper2" },
    { image := (answer 11).1, textureID := (answer 11).2,
      filename := "textures/frosting.jpg", tag := "frosting" } ]

/-- The method `LoadSceneTextures()`: the twelve loads, whose results are
dropped, then `BindGLTextures()`. -/
def SceneManager.LoadSceneTextures (answer : Nat → Option Image × Nat) (s : System) :
    Option System :=
  match SceneManager.createAll (SceneManager.LoadSceneTextures.requests answer)
      { s with cout := s.cout ++ [ConsoleLine.loadingTextures] } with
  | none => none
  | some (_, s1) =>
    match SceneManager.BindGLTextures s1 with
    | none => none
    | some s2 => some { s2 with cout := s2.cout ++ [ConsoleLine.allTexturesLoaded] }

/-- The local `modelView` of `SetTransformations`: the five matrices and
their product `translation * rotationZ * rotationY * rotationX * scale`, in
exact arithmetic (the source computes it in `float`; rounding is not
modelled, so entries agree with the program only where no rounding occurs). -/
def SceneManager.SetTransformations.modelView {R : Type} [CommRing R] (lib : glm.ScalarLib R)
    (scaleXYZ : glm.vec3 R) (XrotationDegrees YrotationDegrees ZrotationDegrees : R)
    (positionXYZ : glm.vec3 R) : Matrix (Fin 4) (Fin 4) R :=
  let scale := glm.scale scaleXYZ
  let rotationX := glm.rotate lib (lib.radians XrotationDegrees) { x := 1, y := 0, z := 0 }
  let rotationY := glm.rotate lib (lib.radians YrotationDegrees) { x := 0, y := 1, z := 0 }
  let rotationZ := glm.rotate lib (lib.radians ZrotationDegrees) { x := 0, y := 0, z := 1 }
  let translation := glm.translate positionXYZ
  translation * rotationZ * rotationY * rotationX * scale

/-- The method `SetTransformations(scaleXYZ, XrotationDegrees, YrotationDegrees,
ZrotationDegrees, positionXYZ)`: pushes `modelView` to the uniform `"model"`
when the shader manager is not null. -/
def SceneManager.SetTransformations (lib : glm.ScalarLib ℚ) (scaleXYZ : glm.vec3 ℚ)
    (XrotationDegrees YrotationDegrees ZrotationDegrees : ℚ) (positionXYZ : glm.vec3 ℚ)
    (s : System) : System :=
  match s.scene.m_pShaderManager with
  | none => s
  | some sh =>
    { s with
      scene := { s.scene with
        m_pShaderManager := some
          (ShaderManager.setMat4Value "model"
            (SceneManager.SetTransformations.modelView lib scaleXYZ XrotationDegrees
              YrotationDegrees ZrotationDegrees positionXYZ) sh) } }

/-- The primitive kinds of the mesh library. -/
inductive Mesh where
  | plane | box | cylinder | cone | sphere
deriving DecidableEq

/-- One draw call on the mesh library, with the uniform writes made up to it
(the uniform state the draw is rendered with). -/
structure DrawCall where
  mesh : Mesh
  uniforms : List (String × UniformValue)
deriving DecidableEq

/-- Modelled from the spec: the Primitive Mesh Library, `draw(kind)` per draw
call.  `ShapeMeshes` is not among the sources; it is kept as the list of draw
calls made so far, oldest first. -/
structure ShapeMeshes where
  draws : List DrawCall
deriving DecidableEq

/-- The state `RenderScene` acts on: the object with its collaborators, and
the mesh library its field `m_basicMeshes` points to. -/
structure Renderer where
  system : System
  m_basicMeshes : ShapeMeshes

/-- A call `m_pShaderManager->f(…)` made without a null check; `none` when the
pointer is null. -/
def Renderer.shader (f : ShaderManager → ShaderManager) (r : Renderer) : Option Renderer :=
  match r.system.scene.m_pShaderManager with
  | none => none
  | some sh =>
    some { r with
      system := { r.system with
        scene := { r.system.scene with m_pShaderManager := some (f sh) } } }

/-- A call `m_basicMeshes->Draw…Mesh()`. -/
def Renderer.draw (mesh : Mesh) (r : Renderer) : Renderer :=
  { r with
    m_basicMeshes :=
      { draws := r.m_basicMeshes.draws ++
          [{ mesh := mesh
             uniforms := match r.system.scene.m_pShaderManager with
               | none => []
               | some sh => sh.uniforms }] } }

/-- A call of `SetTransformations` inside `RenderScene`. -/
def Renderer.SetTransformations (lib : glm.ScalarLib ℚ) (scaleXYZ : glm.vec3 ℚ)
    (XrotationDegrees YrotationDegrees ZrotationDegrees : ℚ) (positionXYZ : glm.vec3 ℚ)
    (r : Renderer) : Renderer :=
  { r with
    system := SceneManager.SetTransformations lib scaleXYZ XrotationDegrees YrotationDegrees
      ZrotationDegrees positionXYZ r.system }

/-- A call of `SetShaderTexture` inside `RenderScene`. -/
def Renderer.SetShaderTexture (tag : String) (r : Renderer) : Option Renderer :=
  match SceneManager.SetShaderTexture tag r.system with
  | none => none
  | some s => some { r with system := s }

/-- The calls `m_pShaderManager->f(…)` of a list, made one after the other. -/
def Renderer.shaderCalls : List (ShaderManager → ShaderManager) → Renderer → Option Renderer
  | [], r => some r
  | f :: fs, r =>
    match r.shader f with
    | none => none
    | some r1 => Renderer.shaderCalls fs r1

/-- The four light sources set at the start of `RenderScene` (lines 288-326). -/
def SceneManager.RenderScene.lights (r : Renderer) : Option Renderer :=
  r.shaderCalls
    [ ShaderManager.setVec3Value "lightSources[0].position" ⟨0, 0, 0⟩,
      ShaderManager.setVec3Value "lightSources[0].ambientColor" ⟨0, 0, 0⟩,
      ShaderManager.setVec3Value "lightSources[0].diffuseColor" ⟨0, 0, 0⟩,
      ShaderManager.setVec3Value "lightSources[0].specularColor" ⟨0, 0, 0⟩,
      ShaderManager.setFloatValue "lightSources[0].focalStrength" 1,
      ShaderManager.setFloatValue "lightSources[0].specularIntensity" 0,
      ShaderManager.setVec3Value "lightSources[1].position" ⟨0, 6.5, -14⟩,
      ShaderManager.setVec3Value "lightSources[1].ambientColor" ⟨0.08, 0.06, 0.03⟩,
      ShaderManager.setVec3Value "lightSources[1].diffuseColor" ⟨0.6, 0.45, 0.25⟩,
      ShaderManager.setVec3Value "lightSources[1].specularColor" ⟨0.7, 0.55, 0.35⟩,
      ShaderManager.setFloatValue "lightSources[1].focalStrength" 20,
      ShaderManager.setFloatValue "lightSources[1].specularIntensity" 0.7,
      ShaderManager.setVec3Value "lightSources[2].position" ⟨0, 20, 0⟩,
      ShaderManager.setVec3Value "lightSources[2].ambientColor" ⟨0.025, 0.025, 0.025⟩,
      ShaderManager.setVec3Value "lightSources[2].diffuseColor" ⟨0.06, 0.06, 0.06⟩,
      ShaderManager.setVec3Value "lightSources[2].specularColor" ⟨0.08, 0.08, 0.08⟩,
      ShaderManager.setFloatValue "lightSources[2].focalStrength" 2,
      ShaderManager.setFloatValue "lightSources[2].specularIntensity" 0.05,
      ShaderManager.setVec3Value "lightSources[3].position" ⟨0, 0, 0⟩,
      ShaderManager.setVec3Value "lightSources[3].ambientColor" ⟨0, 0, 0⟩,
      ShaderManager.setVec3Value "lightSources[3].diffuseColor" ⟨0, 0, 0⟩,
      ShaderManager.setVec3Value "lightSources[3].specularColor" ⟨0, 0, 0⟩,
      ShaderManager.setFloatValue "lightSources[3].focalStrength" 1,
      ShaderManager.setFloatValue "lightSources[3].specularIntensity" 0 ]

/-- The default material of `RenderScene` (lines 329-335). -/
def SceneManager.RenderScene.materials (r : Renderer) : Option Renderer :=
  r.shaderCalls
    [ ShaderManager.setVec3Value "material.ambientColor" ⟨1, 1, 1⟩,
      ShaderManager.setFloatValue "material.ambientStrength" 0.025,
      ShaderManager.setVec3Value "material.diffuseColor" ⟨0.75, 0.75, 0.75⟩,
      ShaderManager.setVec3Value "material.specularColor" ⟨0.3, 0.3, 0.3⟩,
      ShaderManager.setFloatValue "material.shininess" 20 ]

/-- The floor of `RenderScene` (lines 340-348). -/
def SceneManager.RenderScene.floor (lib : glm.ScalarLib ℚ) (r : Renderer) : Option Renderer :=
  match (r.SetTransformations lib ⟨25, 1, 25⟩ 0 0 0 ⟨0, 0, 0⟩).SetShaderTexture "floor" with
  | none => none
  | some r1 => (r1.draw Mesh.plane).shader (ShaderManager.setIntValue "bUseTexture" 0)

/-- The start of `RenderScene` up to and including the floor (lines 275-348):
`BindGLTextures()`, lighting on, the lights, the default material, the floor. -/
def SceneManager.RenderScene.throughFloor (lib : glm.ScalarLib ℚ) (r : Renderer) :
    Option Renderer :=
  match SceneManager.BindGLTextures r.system with
  | none => none
  | some s =>
    match Renderer.shader (ShaderManager.setIntValue "bUseLighting" 1) { r with system := s } with
    | none => none
    | some r1 =>
      match SceneManager.RenderScene.lights r1 with
      | none => none
      | some r2 =>
        match SceneManager.RenderScene.materials r2 with
        | none => none
        | some r3 => SceneManager.RenderScene.floor lib r3

/-- The material override at the start of the ceiling (lines 359-361). -/
def SceneManager.RenderScene.ceilingOverride (r : Renderer) : Option Renderer :=
  r.shaderCalls
    [ ShaderManager.setFloatValue "material.ambientStrength" 0.02,
      ShaderManager.setVec3Value "material.specularColor" ⟨0.08, 0.08, 0.08⟩,
      ShaderManager.setFloatValue "material.shininess" 4 ]

/-- The ceiling of `RenderScene` (lines 353-372): the locals
`savedAmbientStrength`, `savedSpecularColor`, `savedShininess`, the override,
the textured draw, and the three writes of the locals after the draw. -/
def SceneManager.RenderScene.ceiling (lib : glm.ScalarLib ℚ) (r : Renderer) :
    Option Renderer :=
  let savedAmbientStrength : ℚ := 0.03
  let savedSpecularColor : glm.vec3 ℚ := ⟨0.4, 0.4, 0.4⟩
  let savedShininess : ℚ := 24
  match SceneManager.RenderScene.ceilingOverride r with
  | none => none
  | some r1 =>
    match r1.shader (ShaderManager.setIntValue "bUseTexture" 1) with
    | none => none
    | some r2 =>
      match r2.SetShaderTexture "ceiling" with
      | none => none
      | some r3 =>
        ((r3.SetTransformations lib ⟨25, 1, 25⟩ 180 0 0 ⟨0, 12, 0⟩).draw Mesh.plane).shaderCalls
          [ ShaderManager.setFloatValue "material.ambientStrength" savedAmbientStrength,
            ShaderManager.setVec3Value "material.specularColor" savedSpecularColor,
            ShaderManager.setFloatValue "material.shininess" savedShininess ]

/-- The trim around the room of `RenderScene` (lines 377-407): texturing on,
`SetShaderTexture("trim")`, then the four boxes (back, left, right, front). -/
def SceneManager.RenderScene.trim (lib : glm.ScalarLib ℚ) (r : Renderer) : Option Renderer :=
  let trimHeight : ℚ := 0.25
  let trimDepth : ℚ := 0.1
  match r.shader (ShaderManager.setIntValue "bUseTexture" 1) with
  | none => none
  | some r1 =>
    match r1.SetShaderTexture "trim" with
    | none => none
    | some r2 =>
      let r3 := (r2.SetTransformations lib ⟨25, trimHeight, trimDepth⟩ 0 0 0
        ⟨0, 0.125, -12.45⟩).draw Mesh.box
      let r4 := (r3.SetTransformations lib ⟨25, trimHeight, trimDepth⟩ 0 90 0
        ⟨-12.45, 0.125, 0⟩).draw Mesh.box
      let r5 := (r4.SetTransformations lib ⟨25, trimHeight, trimDepth⟩ 0 (-90) 0
        ⟨12.45, 0.125, 0⟩).draw Mesh.box
      some ((r5.SetTransformations lib ⟨25, trimHeight, trimDepth⟩ 0 180 0
        ⟨0, 0.125, 12.45⟩).draw Mesh.box)

/-- The method `RenderScene()` up to and including the trim around the room
(lines 275-407); the draws that follow in the source are not modelled. -/
def SceneManager.RenderScene.throughTrim (lib : glm.ScalarLib ℚ) (r : Renderer) :
    Option Renderer :=
  match SceneManager.RenderScene.throughFloor lib r with
  | none => none
  | some r1 =>
    match SceneManager.RenderScene.ceiling lib r1 with
    | none => none
    | some r2 => SceneManager.RenderScene.trim lib r2

/-- A computable scalar library over the rationals, used to run the model on
concrete inputs: GLM's degree-to-radian factor and the first terms of the
cosine and sine series at 0 and of the inverse square root series at 1. -/
def glm.ScalarLib.series : glm.ScalarLib ℚ :=
  { radians := fun degrees => degrees * 0.01745329251994329576923690768489
    cos := fun a => 1 - a ^ 2 / 2 + a ^ 4 / 24
    sin := fun a => a - a ^ 3 / 6
    inversesqrt := fun x => (3 - x) / 2 }

/-! ## Lookup -/

/-- The scan over `k` slots starting at `i` inside the table returns a value:
-1 when none of the slots `i, …, i+k-1` has the tag, else the first that has. -/
theorem SceneManager.FindTextureSlot_loop_spec (ids : List TEXTURE_INFO) (tag : String) :
    ∀ (k i : Nat), i + k ≤ ids.length →
      ∃ r : Int, SceneManager.FindTextureSlot.loop ids tag k i = some r ∧
        ((r = -1 ∧ ∀ j : Nat, i ≤ j → j < i + k → ∀ t, ids[j]? = some t → t.tag ≠ tag) ∨
         (∃ j : Nat, r = (j : Int) ∧ i ≤ j ∧ j < i + k ∧
            (∃ t, ids[j]? = some t ∧ t.tag = tag) ∧
            ∀ j2 : Nat, i ≤ j2 → j2 < j → ∀ t, ids[j2]? = some t → t.tag ≠ tag)) := by
  intro k
  induction k with
  | zero =>
    intro i _
    refine ⟨-1, rfl, Or.inl ⟨rfl, ?_⟩⟩
    intro j h1 h2
    omega
  | succ k ih =>
    intro i hi
    have hlt : i < ids.length := by omega
    have hget : ids[i]? = some ids[i] := List.getElem?_eq_getElem hlt
    by_cases htag : (ids[i]).tag = tag
    · refine ⟨(i : Int), ?_, Or.inr ⟨i, rfl, le_refl i, by omega, ⟨ids[i], hget, htag⟩, ?_⟩⟩
      · simp [SceneManager.FindTextureSlot.loop, hget, htag]
      · intro j2 h1 h2
        omega
    · obtain ⟨r, hr, hspec⟩ := ih (i + 1) (by omega)
      refine ⟨r, ?_, ?_⟩
      · simp [SceneManager.FindTextureSlot.loop, hget, htag, hr]
      · rcases hspec with ⟨hneg, hnone⟩ | ⟨j, hj, hij, hjk, hfound, hfirst⟩
        · refine Or.inl ⟨hneg, ?_⟩
          intro j h1 h2 t ht
          by_cases hji : j = i
          · subst hji
            rw [hget] at ht
            cases ht
            exact htag
          · exact hnone j (by omega) (by omega) t ht
        · refine Or.inr ⟨j, hj, by omega, by omega, hfound, ?_⟩
          intro j2 h1 h2 t ht
          by_cases hji : j2 = i
          · subst hji
            rw [hget] at ht
            cases ht
            exact htag
          · exact hfirst j2 (by omega) h2 t ht

/-- C5. On a well-formed cache state `FindTextureSlot(tag)` returns a value
`r`; `r` is the sentinel -1 exactly when no slot below the occupied count
carries the tag, and otherwise `r` is an index with `0 ≤ r < count` whose slot
carries the tag while no slot before it does (the least match).  The sentinel
is not an index of the table and no slot at or beyond the count is matched. -/
theorem SceneManager.FindTextureSlot_least_match (m : SceneManager) (tag : String)
    (hwf : m.WellFormed) :
    ∃ r : Int, m.FindTextureSlot tag = some r ∧
      (r = -1 ↔ ∀ i : Nat, (i : Int) < m.m_loadedTextures →
          ∀ t, m.m_textureIDs[i]? = some t → t.tag ≠ tag) ∧
      (r ≠ -1 → 0 ≤ r ∧ r < m.m_loadedTextures ∧
          (∃ t, m.m_textureIDs[r.toNat]? = some t ∧ t.tag = tag) ∧
          ∀ i : Nat, (i : Int) < r → ∀ t, m.m_textureIDs[i]? = some t → t.tag ≠ tag) ∧
      ¬ (0 ≤ (-1 : Int) ∧ (-1 : Int) < m.m_loadedTextures) := by
  obtain ⟨hlen, h0, h16⟩ := hwf
  obtain ⟨r, hr, hspec⟩ := SceneManager.FindTextureSlot_loop_spec m.m_textureIDs tag
    m.m_loadedTextures.toNat 0 (by omega)
  refine ⟨r, hr, ?_, ?_, by omega⟩
  · rcases hspec with ⟨hneg, hnone⟩ | ⟨j, hj, _, hjk, ⟨t, ht, htag⟩, _⟩
    · refine ⟨fun _ i hi t ht => hnone i (Nat.zero_le i) (by omega) t ht, fun _ => hneg⟩
    · constructor
      · intro h
        omega
      · intro h
        exact absurd htag (h j (by omega) t ht)
  · intro hne
    rcases hspec with ⟨hneg, _⟩ | ⟨j, hj, _, hjk, hfound, hfirst⟩
    · exact absurd hneg hne
    · subst hj
      refine ⟨by omega, by omega, ?_, ?_⟩
      · simpa using hfound
      · intro i hi t ht
        exact hfirst i (Nat.zero_le i) (by omega) t ht

/-- C5 at a concrete state: two occupied slots `"a"`, `"b"`, looking up `"b"`. -/
theorem SceneManager.FindTextureSlot_least_match_witness :
    ∃ r : Int, SceneManager.FindTextureSlot
        { m_pShaderManager := none
          m_textureIDs := [⟨"a", 1⟩, ⟨"b", 2⟩] ++ List.replicate 14 ⟨"/0", 0⟩
          m_loadedTextures := 2 } "b" = some r ∧ r ≠ -1 :=
  (SceneManager.FindTextureSlot_least_match
      { m_pShaderManager := none
        m_textureIDs := [⟨"a", 1⟩, ⟨"b", 2⟩] ++ List.replicate 14 ⟨"/0", 0⟩
        m_loadedTextures := 2 } "b" ⟨by decide, by decide, by decide⟩).elim
    (fun r h => ⟨r, h.1, fun hneg => by
      have := h.2.1.1 hneg 1 (by decide) ⟨"b", 2⟩ (by decide)
      exact this rfl⟩)

/-! ## Loading -/

theorem SceneManager.slotWrite_eq (ids : List TEXTURE_INFO) (i : Int)
    (f : TEXTURE_INFO → TEXTURE_INFO) (h0 : 0 ≤ i) (hlt : i.toNat < ids.length) :
    SceneManager.slotWrite ids i f = some (ids.set i.toNat (f ids[i.toNat])) := by
  simp [SceneManager.slotWrite, h0, List.getElem?_eq_getElem hlt]

/-- At capacity the call only writes the error line. -/
theorem SceneManager.CreateGLTexture_full (image : Option Image) (textureID : Nat)
    (filename tag : String) (s : System) (h : 16 ≤ s.scene.m_loadedTextures) :
    SceneManager.CreateGLTexture image textureID filename tag s =
      some (false, { s with cout := s.cout ++ [ConsoleLine.textureLimitReached filename] }) := by
  simp [SceneManager.CreateGLTexture, h]

/-- Below capacity, a failed decode or an unsupported channel count returns
false and leaves the object as it was. -/
theorem SceneManager.CreateGLTexture_rejected (image : Option Image) (textureID : Nat)
    (filename tag : String) (s : System) (hn : s.scene.m_loadedTextures < 16)
    (hbad : ∀ img, image = some img → img.colorChannels ≠ 3 ∧ img.colorChannels ≠ 4) :
    ∃ s1, SceneManager.CreateGLTexture image textureID filename tag s = some (false, s1) ∧
      s1.scene = s.scene := by
  have hn2 : ¬ 16 ≤ s.scene.m_loadedTextures := by omega
  cases image with
  | none =>
    simp only [SceneManager.CreateGLTexture, ge_iff_le, hn2, if_false]
    exact ⟨_, rfl, rfl⟩
  | some img =>
    obtain ⟨h3, h4⟩ := hbad img rfl
    simp only [SceneManager.CreateGLTexture, ge_iff_le, hn2, if_false, h3, h4]
    exact ⟨_, rfl, rfl⟩

/-- Below capacity, on a table of 16 slots, an image of 3 or 4 channels is
stored in slot `m_loadedTextures` and the count goes up by one. -/
theorem SceneManager.CreateGLTexture_stored (img : Image) (textureID : Nat)
    (filename tag : String) (s : System) (hwf : s.scene.WellFormed)
    (hn : s.scene.m_loadedTextures < 16)
    (hch : img.colorChannels = 3 ∨ img.colorChannels = 4) :
    ∃ s1, SceneManager.CreateGLTexture (some img) textureID filename tag s = some (true, s1) ∧
      s1.scene = { s.scene with
        m_textureIDs := s.scene.m_textureIDs.set s.scene.m_loadedTextures.toNat
          { tag := tag, ID := textureID }
        m_loadedTextures := s.scene.m_loadedTextures + 1 } ∧
      s1.gl.textures = s.gl.textures ++ [textureID] := by
  obtain ⟨hlen, h0, h16⟩ := hwf
  have hn2 : ¬ 16 ≤ s.scene.m_loadedTextures := by omega
  have hlt : s.scene.m_loadedTextures.toNat < s.scene.m_textureIDs.length := by omega
  have hw1 := SceneManager.slotWrite_eq s.scene.m_textureIDs s.scene.m_loadedTextures
    (fun t => { t with ID := textureID }) h0 hlt
  have hlt2 : s.scene.m_loadedTextures.toNat <
      (s.scene.m_textureIDs.set s.scene.m_loadedTextures.toNat
        { (s.scene.m_textureIDs[s.scene.m_loadedTextures.toNat]) with ID := textureID }).length := by
    simpa using hlt
  have hw2 := SceneManager.slotWrite_eq _ s.scene.m_loadedTextures
    (fun t => { t with tag := tag }) h0 hlt2
  have h43 : (4 : Int) ≠ 3 := by decide
  rcases hch with h3 | h4
  · simp only [SceneManager.CreateGLTexture, ge_iff_le, hn2, if_false, h3, if_true, hw1, hw2]
    refine ⟨_, rfl, ?_, ?_⟩
    · simp
    · simp [glBindTexture, glGenerateMipmap, glTexImage2D, glPixelStorei, glTexParameteri,
        glGenTextures]
  · simp only [SceneManager.CreateGLTexture, ge_iff_le, hn2, if_false, h4, h43, if_true, hw1,
      hw2]
    refine ⟨_, rfl, ?_, ?_⟩
    · simp
    · simp [glBindTexture, glGenerateMipmap, glTexImage2D, glPixelStorei, glTexParameteri,
        glGenTextures]

/-- One request on a well-formed state returns, keeps the state well formed,
and raises the count by one exactly when it returns true. -/
theorem SceneManager.CreateGLTexture_step (image : Option Image) (textureID : Nat)
    (filename tag : String) (s : System) (hwf : s.scene.WellFormed) :
    ∃ b s1, SceneManager.CreateGLTexture image textureID filename tag s = some (b, s1) ∧
      s1.scene.WellFormed ∧
      s1.scene.m_loadedTextures = s.scene.m_loadedTextures + (if b = true then 1 else 0) := by
  by_cases hfull : 16 ≤ s.scene.m_loadedTextures
  · exact ⟨false, _, SceneManager.CreateGLTexture_full image textureID filename tag s hfull,
      hwf, by simp⟩
  · have hn : s.scene.m_loadedTextures < 16 := by omega
    by_cases hok : ∃ img, image = some img ∧ (img.colorChannels = 3 ∨ img.colorChannels = 4)
    · obtain ⟨img, rfl, hch⟩ := hok
      obtain ⟨s1, h1, hscene, _⟩ :=
        SceneManager.CreateGLTexture_stored img textureID filename tag s hwf hn hch
      refine ⟨true, s1, h1, ?_, ?_⟩
      · obtain ⟨hlen, h0, h16⟩ := hwf
        rw [hscene]
        refine ⟨?_, ?_, ?_⟩
        · simpa using hlen
        · show 0 ≤ s.scene.m_loadedTextures + 1
          omega
        · show s.scene.m_loadedTextures + 1 ≤ 16
          omega
      · rw [hscene]
        simp
    · have hbad : ∀ img, image = some img → img.colorChannels ≠ 3 ∧ img.colorChannels ≠ 4 := by
        intro img himg
        constructor
        · intro h3
          exact hok ⟨img, himg, Or.inl h3⟩
        · intro h4
          exact hok ⟨img, himg, Or.inr h4⟩
      obtain ⟨s1, h1, hscene⟩ :=
        SceneManager.CreateGLTexture_rejected image textureID filename tag s hn hbad
      refine ⟨false, s1, h1, ?_, ?_⟩
      · rw [hscene]
        exact hwf
      · rw [hscene]
        simp

/-- A sequence of requests on a well-formed state runs to the end; the count
grows by the number of requests that returned true. -/
theorem SceneManager.createAll_count (qs : List LoadRequest) :
    ∀ s : System, s.scene.WellFormed →
      ∃ bs s1, SceneManager.createAll qs s = some (bs, s1) ∧ s1.scene.WellFormed ∧
        s1.scene.m_loadedTextures = s.scene.m_loadedTextures + ((bs.count true : Nat) : Int) := by
  induction qs with
  | nil =>
    intro s hwf
    exact ⟨[], s, rfl, hwf, by simp⟩
  | cons q qs ih =>
    intro s hwf
    obtain ⟨b, s1, h1, hwf1, hc1⟩ :=
      SceneManager.CreateGLTexture_step q.image q.textureID q.filename q.tag s hwf
    obtain ⟨bs, s2, h2, hwf2, hc2⟩ := ih s1 hwf1
    refine ⟨b :: bs, s2, ?_, hwf2, ?_⟩
    · simp [SceneManager.createAll, h1, h2]
    · rw [hc2, hc1]
      cases b
      · simp [List.count_cons]
      · simp [List.count_cons]
        omega

theorem SceneManager.construct_wellFormed (p : Option ShaderManager) :
    (SceneManager.construct p).WellFormed :=
  ⟨by simp [SceneManager.construct], by simp [SceneManager.construct],
    by simp [SceneManager.construct]⟩

/-- C1. From a freshly constructed object every sequence of `CreateGLTexture`
requests runs to the end with the occupied count equal to the number of
requests that returned true, which is at most 16; and once 16 requests have
returned true, any further request returns false and leaves the object (slot
table and count), the OpenGL context and the decoder log as they were. -/
theorem SceneManager.CreateGLTexture_count_and_capacity (p : Option ShaderManager)
    (gl : GLContext) (stbi : List StbiCall) (cout : List ConsoleLine)
    (qs : List LoadRequest) :
    ∃ bs s, SceneManager.createAll qs (System.constructed p gl stbi cout) = some (bs, s) ∧
      s.scene.m_loadedTextures = ((bs.count true : Nat) : Int) ∧
      bs.count true ≤ 16 ∧
      (bs.count true = 16 →
        ∀ (image : Option Image) (textureID : Nat) (filename tag : String),
          ∃ s1, SceneManager.CreateGLTexture image textureID filename tag s = some (false, s1) ∧
            s1.scene = s.scene ∧ s1.gl = s.gl ∧ s1.stbi = s.stbi) := by
  obtain ⟨bs, s, hrun, hwf, hcount⟩ :=
    SceneManager.createAll_count qs (System.constructed p gl stbi cout)
      (SceneManager.construct_wellFormed p)
  have hzero : (System.constructed p gl stbi cout).scene.m_loadedTextures = 0 := rfl
  rw [hzero, zero_add] at hcount
  obtain ⟨_, _, h16⟩ := hwf
  refine ⟨bs, s, hrun, hcount, by omega, ?_⟩
  intro hfull image textureID filename tag
  exact ⟨_, SceneManager.CreateGLTexture_full image textureID filename tag s (by omega),
    rfl, rfl, rfl⟩

/-- C1 at a concrete input: sixteen successful loads, then a seventeenth. -/
theorem SceneManager.CreateGLTexture_count_and_capacity_witness :
    ∃ bs s, SceneManager.createAll
        (List.replicate 16
          { image := some { width := 64, height := 64, colorChannels := 3 }
            textureID := 1, filename := "textures/floor.jpg", tag := "floor" })
        (System.constructed none GLContext.initial [] []) = some (bs, s) ∧
      bs.count true = 16 ∧
      ∃ s1, SceneManager.CreateGLTexture
          (some { width := 64, height := 64, colorChannels := 3 }) 17 "textures/more.jpg" "more" s =
            some (false, s1) ∧ s1.scene = s.scene :=
  (SceneManager.CreateGLTexture_count_and_capacity none GLContext.initial [] []
    (List.replicate 16
      { image := some { width := 64, height := 64, colorChannels := 3 }
        textureID := 1, filename := "textures/floor.jpg", tag := "floor" })).elim
    (fun bs h => h.elim (fun s h2 =>
      have hbs : bs.count true = 16 := by
        have hev : (SceneManager.createAll
            (List.replicate 16
              { image := some { width := 64, height := 64, colorChannels := 3 }
                textureID := 1, filename := "textures/floor.jpg", tag := "floor" })
            (System.constructed none GLContext.initial [] [])).map (fun r => r.1.count true) =
              some 16 := by decide
        rw [h2.1] at hev
        simpa using hev
      ⟨bs, s, h2.1, hbs,
        (h2.2.2.2 hbs (some { width := 64, height := 64, colorChannels := 3 }) 17
          "textures/more.jpg" "more").elim (fun s1 h3 => ⟨s1, h3.1, h3.2.1⟩)⟩))

/-- C2, at the failing input: on a freshly constructed object a one-channel
image makes `CreateGLTexture` return false with the object untouched, but the
texture name it generated (1) stays in use and stays bound to `GL_TEXTURE_2D`
on the selected unit, where before the call no name was in use and texture 0
was bound. -/
theorem SceneManager.CreateGLTexture_unsupported_keeps_texture :
    ∃ s1, SceneManager.CreateGLTexture (some { width := 64, height := 64, colorChannels := 1 })
        1 "textures/gray.png" "gray" (System.constructed none GLContext.initial [] []) =
          some (false, s1) ∧
      s1.scene = SceneManager.construct none ∧
      s1.gl.textures = [1] ∧ GLContext.initial.textures = [] ∧
      s1.gl.binding2D s1.gl.activeTexture = 1 ∧
      GLContext.initial.binding2D GLContext.initial.activeTexture = 0 :=
  ⟨_, rfl, rfl, rfl, rfl, rfl, rfl⟩

/-- C3. Below capacity, when the decoder fails or reports a channel count
other than 3 and 4, `CreateGLTexture` returns false, the occupied count is
not incremented and the slot table (every tag and handle) is unchanged. -/
theorem SceneManager.CreateGLTexture_rejects_bad_image (image : Option Image)
    (textureID : Nat) (filename tag : String) (s : System)
    (hn : s.scene.m_loadedTextures < 16)
    (hbad : image = none ∨
      ∃ img, image = some img ∧ img.colorChannels ≠ 3 ∧ img.colorChannels ≠ 4) :
    ∃ s1, SceneManager.CreateGLTexture image textureID filename tag s = some (false, s1) ∧
      s1.scene.m_loadedTextures = s.scene.m_loadedTextures ∧
      s1.scene.m_textureIDs = s.scene.m_textureIDs := by
  have hbad2 : ∀ img, image = some img → img.colorChannels ≠ 3 ∧ img.colorChannels ≠ 4 := by
    intro img himg
    rcases hbad with hnone | ⟨img2, himg2, h⟩
    · rw [hnone] at himg
      cases himg
    · rw [himg2] at himg
      cases himg
      exact h
  obtain ⟨s1, h1, hscene⟩ :=
    SceneManager.CreateGLTexture_rejected image textureID filename tag s hn hbad2
  exact ⟨s1, h1, by rw [hscene], by rw [hscene]⟩

/-- C3 at a concrete input: a one-channel (grayscale) image on a fresh object. -/
theorem SceneManager.CreateGLTexture_rejects_bad_image_witness :
    ∃ s1, SceneManager.CreateGLTexture (some { width := 64, height := 64, colorChannels := 1 })
        1 "textures/gray.png" "gray" (System.constructed none GLContext.initial [] []) =
          some (false, s1) ∧
      s1.scene.m_loadedTextures = 0 ∧
      s1.scene.m_textureIDs = (SceneManager.construct none).m_textureIDs :=
  SceneManager.CreateGLTexture_rejects_bad_image
    (some { width := 64, height := 64, colorChannels := 1 }) 1 "textures/gray.png" "gray"
    (System.constructed none GLContext.initial [] []) (by decide)
    (Or.inr ⟨_, rfl, by decide, by decide⟩)

/-- C4. On a well-formed state with occupied count `n < 16`, an image of 3 or
4 channels makes `CreateGLTexture(filename, tag)` return true; the count
becomes `n + 1`, slot `n` holds the given tag and the texture name generated
by this call (which is now in use in the OpenGL context), every other slot is
unchanged and the table still has 16 slots. -/
theorem SceneManager.CreateGLTexture_appends (img : Image) (textureID : Nat)
    (filename tag : String) (s : System) (hwf : s.scene.WellFormed)
    (hn : s.scene.m_loadedTextures < 16)
    (hch : img.colorChannels = 3 ∨ img.colorChannels = 4) :
    ∃ s1, SceneManager.CreateGLTexture (some img) textureID filename tag s = some (true, s1) ∧
      s1.scene.m_loadedTextures = s.scene.m_loadedTextures + 1 ∧
      s1.scene.m_textureIDs[s.scene.m_loadedTextures.toNat]? =
        some { tag := tag, ID := textureID } ∧
      s1.gl.textures = s.gl.textures ++ [textureID] ∧
      (∀ i : Nat, (i : Int) ≠ s.scene.m_loadedTextures →
        s1.scene.m_textureIDs[i]? = s.scene.m_textureIDs[i]?) ∧
      s1.scene.m_textureIDs.length = 16 := by
  obtain ⟨s1, h1, hscene, hgl⟩ :=
    SceneManager.CreateGLTexture_stored img textureID filename tag s hwf hn hch
  obtain ⟨hlen, h0, h16⟩ := hwf
  refine ⟨s1, h1, by rw [hscene], ?_, hgl, ?_, ?_⟩
  · rw [hscene]
    have hlt : s.scene.m_loadedTextures.toNat < s.scene.m_textureIDs.length := by omega
    simp [List.getElem?_set, hlt]
  · intro i hi
    rw [hscene]
    have hne : s.scene.m_loadedTextures.toNat ≠ i := by omega
    simp [List.getElem?_set, hne]
  · rw [hscene]
    simpa using hlen

/-- C4 at a concrete input: the first load into a fresh object. -/
theorem SceneManager.CreateGLTexture_appends_witness :
    ∃ s1, SceneManager.CreateGLTexture (some { width := 64, height := 64, colorChannels := 3 })
        1 "textures/floor.jpg" "floor" (System.constructed none GLContext.initial [] []) =
          some (true, s1) ∧
      s1.scene.m_loadedTextures = 1 ∧
      s1.scene.m_textureIDs[0]? = some { tag := "floor", ID := 1 } :=
  (SceneManager.CreateGLTexture_appends { width := 64, height := 64, colorChannels := 3 }
    1 "textures/floor.jpg" "floor" (System.constructed none GLContext.initial [] [])
    (SceneManager.construct_wellFormed none) (by decide) (Or.inl rfl)).elim
    (fun s1 h => ⟨s1, h.1, h.2.1, h.2.2.1⟩)

/-- The scan only depends on the slots it visits. -/
theorem SceneManager.FindTextureSlot_loop_congr (ids ids2 : List TEXTURE_INFO) (tag : String) :
    ∀ (k i : Nat), (∀ j : Nat, i ≤ j → j < i + k → ids[j]? = ids2[j]?) →
      SceneManager.FindTextureSlot.loop ids tag k i =
        SceneManager.FindTextureSlot.loop ids2 tag k i := by
  intro k
  induction k with
  | zero =>
    intro i _
    rfl
  | succ k ih =>
    intro i h
    have hi : ids[i]? = ids2[i]? := h i (le_refl i) (by omega)
    have hrest := ih (i + 1) (fun j h1 h2 => h j (by omega) (by omega))
    simp only [SceneManager.FindTextureSlot.loop, hi, hrest]

/-- Scanning one slot more: the result of the shorter scan stands unless it
is the sentinel, in which case the extra slot decides. -/
theorem SceneManager.FindTextureSlot_loop_succ (ids : List TEXTURE_INFO) (tag : String) :
    ∀ (k i : Nat), SceneManager.FindTextureSlot.loop ids tag (k + 1) i =
      match SceneManager.FindTextureSlot.loop ids tag k i with
      | none => none
      | some r =>
        if r = -1 then
          match ids[i + k]? with
          | none => none
          | some t => if t.tag = tag then some ((i + k : Nat) : Int) else some (-1)
        else some r := by
  intro k
  induction k with
  | zero =>
    intro i
    simp [SceneManager.FindTextureSlot.loop]
  | succ k ih =>
    intro i
    rw [SceneManager.FindTextureSlot.loop]
    conv_rhs => rw [SceneManager.FindTextureSlot.loop]
    cases hget : ids[i]? with
    | none => rfl
    | some t =>
      by_cases htag : t.tag = tag
      · have hne : ¬ ((i : Int) = -1) := by omega
        simp [htag, hne]
      · simp only [htag, if_false]
        rw [ih (i + 1)]
        have hidx : i + 1 + k = i + (k + 1) := by omega
        rw [hidx]

/-- Lookup after a slot was stored at the occupied count `n` and the count
raised to `n + 1`: an earlier match stands, else the new slot decides. -/
theorem SceneManager.FindTextureSlot_after_store (m : SceneManager) (x : TEXTURE_INFO)
    (other : String) (h0 : 0 ≤ m.m_loadedTextures)
    (hlt : m.m_loadedTextures.toNat < m.m_textureIDs.length) :
    SceneManager.FindTextureSlot
        { m with
          m_textureIDs := m.m_textureIDs.set m.m_loadedTextures.toNat x
          m_loadedTextures := m.m_loadedTextures + 1 } other =
      match SceneManager.FindTextureSlot m other with
      | none => none
      | some r =>
        if r = -1 then
          if x.tag = other then some m.m_loadedTextures else some (-1)
        else some r := by
  have hk : (m.m_loadedTextures + 1).toNat = m.m_loadedTextures.toNat + 1 := by omega
  have hcongr := SceneManager.FindTextureSlot_loop_congr
    (m.m_textureIDs.set m.m_loadedTextures.toNat x) m.m_textureIDs other
    m.m_loadedTextures.toNat 0 (by
      intro j _ hj
      have hne : m.m_loadedTextures.toNat ≠ j := by omega
      simp [List.getElem?_set, hne])
  have hnew : (m.m_textureIDs.set m.m_loadedTextures.toNat x)[0 + m.m_loadedTextures.toNat]? =
      some x := by
    simp [List.getElem?_set, hlt]
  have hcast : ((0 + m.m_loadedTextures.toNat : Nat) : Int) = m.m_loadedTextures := by omega
  simp only [SceneManager.FindTextureSlot, hk]
  rw [SceneManager.FindTextureSlot_loop_succ, hcongr, hnew, hcast]

/-- A call that returned true on a well-formed state was made below capacity
and stored the slot `{tag, textureID}` at the occupied count. -/
theorem SceneManager.CreateGLTexture_true_inv (image : Option Image) (textureID : Nat)
    (filename tag : String) (s s1 : System) (hwf : s.scene.WellFormed)
    (hload : SceneManager.CreateGLTexture image textureID filename tag s = some (true, s1)) :
    s.scene.m_loadedTextures < 16 ∧
      s1.scene = { s.scene with
        m_textureIDs := s.scene.m_textureIDs.set s.scene.m_loadedTextures.toNat
          { tag := tag, ID := textureID }
        m_loadedTextures := s.scene.m_loadedTextures + 1 } := by
  by_cases hfull : 16 ≤ s.scene.m_loadedTextures
  · rw [SceneManager.CreateGLTexture_full image textureID filename tag s hfull] at hload
    simp at hload
  · have hn : s.scene.m_loadedTextures < 16 := by omega
    by_cases hok : ∃ img, image = some img ∧ (img.colorChannels = 3 ∨ img.colorChannels = 4)
    · obtain ⟨img, rfl, hch⟩ := hok
      obtain ⟨s2, h2, hscene, _⟩ :=
        SceneManager.CreateGLTexture_stored img textureID filename tag s hwf hn hch
      rw [h2] at hload
      simp only [Option.some.injEq, Prod.mk.injEq, true_and] at hload
      subst hload
      exact ⟨hn, hscene⟩
    · have hbad : ∀ img, image = some img → img.colorChannels ≠ 3 ∧ img.colorChannels ≠ 4 :=
        fun img himg => ⟨fun h3 => hok ⟨img, himg, Or.inl h3⟩, fun h4 => hok ⟨img, himg, Or.inr h4⟩⟩
      obtain ⟨s2, h2, _⟩ :=
        SceneManager.CreateGLTexture_rejected image textureID filename tag s hn hbad
      rw [h2] at hload
      simp at hload

/-- A successful load on a well-formed state, with the lookups that follow it. -/
theorem SceneManager.CreateGLTexture_then_find (img : Image) (textureID : Nat)
    (filename tag : String) (s : System) (hwf : s.scene.WellFormed)
    (hn : s.scene.m_loadedTextures < 16)
    (hch : img.colorChannels = 3 ∨ img.colorChannels = 4) :
    ∃ s1, SceneManager.CreateGLTexture (some img) textureID filename tag s = some (true, s1) ∧
      s1.scene.WellFormed ∧
      s1.scene.m_loadedTextures = s.scene.m_loadedTextures + 1 ∧
      ∀ other : String, s1.scene.FindTextureSlot other =
        match s.scene.FindTextureSlot other with
        | none => none
        | some r =>
          if r = -1 then
            if tag = other then some s.scene.m_loadedTextures else some (-1)
          else some r := by
  obtain ⟨b, s1, h1, hwf1, hc1⟩ :=
    SceneManager.CreateGLTexture_step (some img) textureID filename tag s hwf
  obtain ⟨s2, h2, hscene, _⟩ :=
    SceneManager.CreateGLTexture_stored img textureID filename tag s hwf hn hch
  rw [h2] at h1
  simp only [Option.some.injEq, Prod.mk.injEq] at h1
  obtain ⟨hb, hs⟩ := h1
  subst hb
  subst hs
  obtain ⟨hlen, h0, h16⟩ := hwf
  refine ⟨s2, h2, hwf1, by simpa using hc1, ?_⟩
  intro other
  rw [hscene]
  exact SceneManager.FindTextureSlot_after_store s.scene { tag := tag, ID := textureID } other
    h0 (by omega)

/-- C6. First-loaded wins.  (1) After a `CreateGLTexture(_, tag)` that
returned true on a well-formed state with occupied count `n < 16`,
`FindTextureSlot(tag)` equals its value before the load when the tag was
already present (value other than -1) and equals `n` otherwise, and
`FindTextureSlot` of every other tag is what it was before.  (2) After the
successful loads of tags A, B, A into a freshly constructed object,
`FindTextureSlot(A)` is 0.  (3) The first successful load into a freshly
constructed object is found at index 0. -/
theorem SceneManager.FindTextureSlot_first_loaded_wins :
    (∀ (image : Option Image) (textureID : Nat) (filename tag : String) (s s1 : System),
      s.scene.WellFormed → s.scene.m_loadedTextures < 16 →
      SceneManager.CreateGLTexture image textureID filename tag s = some (true, s1) →
      ∃ r : Int, s.scene.FindTextureSlot tag = some r ∧
        (r ≠ -1 → s1.scene.FindTextureSlot tag = some r) ∧
        (r = -1 → s1.scene.FindTextureSlot tag = some s.scene.m_loadedTextures) ∧
        ∀ other : String, other ≠ tag →
          s1.scene.FindTextureSlot other = s.scene.FindTextureSlot other) ∧
    (∀ (p : Option ShaderManager) (gl : GLContext) (stbi : List StbiCall)
      (cout : List ConsoleLine) (img1 img2 img3 : Image) (id1 id2 id3 : Nat)
      (file1 file2 file3 A B : String),
      (img1.colorChannels = 3 ∨ img1.colorChannels = 4) →
      (img2.colorChannels = 3 ∨ img2.colorChannels = 4) →
      (img3.colorChannels = 3 ∨ img3.colorChannels = 4) →
      ∃ s, SceneManager.createAll
          [{ image := some img1, textureID := id1, filename := file1, tag := A },
           { image := some img2, textureID := id2, filename := file2, tag := B },
           { image := some img3, textureID := id3, filename := file3, tag := A }]
          (System.constructed p gl stbi cout) = some ([true, true, true], s) ∧
        s.scene.FindTextureSlot A = some 0) ∧
    (∀ (p : Option ShaderManager) (gl : GLContext) (stbi : List StbiCall)
      (cout : List ConsoleLine) (img : Image) (textureID : Nat) (filename A : String),
      (img.colorChannels = 3 ∨ img.colorChannels = 4) →
      ∃ s1, SceneManager.CreateGLTexture (some img) textureID filename A
          (System.constructed p gl stbi cout) = some (true, s1) ∧
        s1.scene.FindTextureSlot A = some 0) := by
  refine ⟨?_, ?_, ?_⟩
  · intro image textureID filename tag s s1 hwf _ hload
    obtain ⟨_, hscene⟩ :=
      SceneManager.CreateGLTexture_true_inv image textureID filename tag s s1 hwf hload
    obtain ⟨hlen, h0, h16⟩ := hwf
    obtain ⟨r, hr, _⟩ := SceneManager.FindTextureSlot_loop_spec s.scene.m_textureIDs tag
      s.scene.m_loadedTextures.toNat 0 (by omega)
    have hfind : s.scene.FindTextureSlot tag = some r := hr
    have hafter := fun other => SceneManager.FindTextureSlot_after_store s.scene
      { tag := tag, ID := textureID } other h0 (by omega)
    refine ⟨r, hfind, ?_, ?_, ?_⟩
    · intro hne
      rw [hscene, hafter tag, hfind]
      simp [hne]
    · intro hneg
      rw [hscene, hafter tag, hfind]
      simp [hneg]
    · intro other hother
      rw [hscene, hafter other]
      cases hfo : s.scene.FindTextureSlot other with
      | none => rfl
      | some r2 =>
        by_cases h2 : r2 = -1
        · simp [h2, Ne.symm hother]
        · simp [h2]
  · intro p gl stbi cout img1 img2 img3 id1 id2 id3 file1 file2 file3 A B hc1 hc2 hc3
    obtain ⟨s1, h1, hwf1, hn1, hf1⟩ := SceneManager.CreateGLTexture_then_find img1 id1 file1 A
      (System.constructed p gl stbi cout) (SceneManager.construct_wellFormed p)
      (by simp [System.constructed, SceneManager.construct]) hc1
    have hz : (System.constructed p gl stbi cout).scene.m_loadedTextures = 0 := rfl
    obtain ⟨s2, h2, hwf2, hn2, hf2⟩ := SceneManager.CreateGLTexture_then_find img2 id2 file2 B
      s1 hwf1 (by omega) hc2
    obtain ⟨s3, h3, _, _, hf3⟩ := SceneManager.CreateGLTexture_then_find img3 id3 file3 A
      s2 hwf2 (by omega) hc3
    have e0 : (System.constructed p gl stbi cout).scene.FindTextureSlot A = some (-1) := rfl
    have e1 : s1.scene.FindTextureSlot A = some 0 := by
      rw [hf1 A, e0]
      simp [hz]
    have e2 : s2.scene.FindTextureSlot A = some 0 := by
      rw [hf2 A, e1]
      simp
    have e3 : s3.scene.FindTextureSlot A = some 0 := by
      rw [hf3 A, e2]
      simp
    exact ⟨s3, by simp [SceneManager.createAll, h1, h2, h3], e3⟩
  · intro p gl stbi cout img textureID filename A hc
    obtain ⟨s1, h1, _, _, hf1⟩ := SceneManager.CreateGLTexture_then_find img textureID filename A
      (System.constructed p gl stbi cout) (SceneManager.construct_wellFormed p)
      (by simp [System.constructed, SceneManager.construct]) hc
    have hz : (System.constructed p gl stbi cout).scene.m_loadedTextures = 0 := rfl
    have e0 : (System.constructed p gl stbi cout).scene.FindTextureSlot A = some (-1) := rfl
    refine ⟨s1, h1, ?_⟩
    rw [hf1 A, e0]
    simp [hz]

/-- C6 at a concrete input: `"wall"` loaded into a cache that already holds
`"floor"` and `"wall"`; the lookup of `"wall"` stays at its first slot. -/
theorem SceneManager.FindTextureSlot_first_loaded_wins_witness :
    ∃ s1 r, SceneManager.CreateGLTexture (some { width := 8, height := 8, colorChannels := 4 })
        3 "textures/wall2.jpg" "wall"
        { scene :=
            { m_pShaderManager := none
              m_textureIDs := [⟨"floor", 1⟩, ⟨"wall", 2⟩] ++ List.replicate 14 ⟨"/0", 0⟩
              m_loadedTextures := 2 }
          gl := GLContext.initial, stbi := [], cout := [] } = some (true, s1) ∧
      s1.scene.FindTextureSlot "wall" = some r ∧ r ≠ -1 :=
  ⟨_, 1, rfl,
    ((SceneManager.FindTextureSlot_first_loaded_wins.1
      (some { width := 8, height := 8, colorChannels := 4 }) 3 "textures/wall2.jpg" "wall"
      { scene :=
          { m_pShaderManager := none
            m_textureIDs := [⟨"floor", 1⟩, ⟨"wall", 2⟩] ++ List.replicate 14 ⟨"/0", 0⟩
            m_loadedTextures := 2 }
        gl := GLContext.initial, stbi := [], cout := [] } _
      ⟨by decide, by decide, by decide⟩ (by decide) rfl).elim
      (fun r h => by
        have hr : r = 1 := by
          have h1 := h.1
          have h2 : SceneManager.FindTextureSlot
              { m_pShaderManager := none
                m_textureIDs := [⟨"floor", 1⟩, ⟨"wall", 2⟩] ++ List.replicate 14 ⟨"/0", 0⟩
                m_loadedTextures := 2 } "wall" = some 1 := by decide
          rw [h2] at h1
          exact (Option.some.inj h1).symm
        subst hr
        exact h.2.1 (by decide))),
    by decide⟩

/-! ## Binding -/

/-- The bind loop over `k` slots starting at `i` inside the table runs to the
end and appends, slot by slot, the activation of the unit and the bind of the
handle. -/
theorem SceneManager.BindGLTextures_loop_spec (ids : List TEXTURE_INFO) :
    ∀ (k i : Nat) (gl : GLContext), i + k ≤ ids.length →
      ∃ gl1, SceneManager.BindGLTextures.loop ids k i gl = some gl1 ∧
        gl1.calls = gl.calls ++
          (List.enumFrom i ((ids.drop i).take k)).flatMap
            (fun p => [GLCall.activeTexture p.1, GLCall.bindTexture p.2.ID]) ∧
        gl1.textures = gl.textures := by
  intro k
  induction k with
  | zero =>
    intro i gl _
    exact ⟨gl, rfl, by simp, rfl⟩
  | succ k ih =>
    intro i gl hi
    have hlt : i < ids.length := by omega
    have hget : ids[i]? = some ids[i] := List.getElem?_eq_getElem hlt
    obtain ⟨gl1, h1, hcalls, htex⟩ :=
      ih (i + 1) (glBindTexture (ids[i]).ID (glActiveTexture i gl)) (by omega)
    refine ⟨gl1, ?_, ?_, ?_⟩
    · simp only [SceneManager.BindGLTextures.loop, hget]
      exact h1
    · have hd : (ids.drop i).take (k + 1) = ids[i] :: (ids.drop (i + 1)).take k := by
        rw [List.drop_eq_getElem_cons hlt, List.take_succ_cons]
      rw [hcalls, hd]
      simp [glBindTexture, glActiveTexture, List.enumFrom_cons, List.flatMap_cons]
    · rw [htex]
      rfl

/-- C9. On a well-formed state with occupied count `n`, `BindGLTextures`
appends to the OpenGL call log, for the slots 0, …, n-1 in increasing order,
the activation of unit `i` followed by the bind of slot `i`'s handle, and
nothing else (nothing for slots at or beyond `n`); the object (slot table,
count, shader pointer), the textures in use, the decoder log and the console
are unchanged. -/
theorem SceneManager.BindGLTextures_slot_to_unit (s : System) (hwf : s.scene.WellFormed) :
    ∃ s1, SceneManager.BindGLTextures s = some s1 ∧
      s1.gl.calls = s.gl.calls ++
        ((s.scene.m_textureIDs.take s.scene.m_loadedTextures.toNat).enum).flatMap
          (fun p => [GLCall.activeTexture p.1, GLCall.bindTexture p.2.ID]) ∧
      s1.scene = s.scene ∧ s1.gl.textures = s.gl.textures ∧
      s1.stbi = s.stbi ∧ s1.cout = s.cout := by
  obtain ⟨hlen, h0, h16⟩ := hwf
  obtain ⟨gl1, h1, hcalls, htex⟩ := SceneManager.BindGLTextures_loop_spec s.scene.m_textureIDs
    s.scene.m_loadedTextures.toNat 0 s.gl (by omega)
  refine ⟨{ s with gl := gl1 }, ?_, ?_, rfl, htex, rfl, rfl⟩
  · simp only [SceneManager.BindGLTextures, h1]
  · simpa [List.enum] using hcalls

/-- C9 at a concrete input: two occupied slots with handles 7 and 9. -/
theorem SceneManager.BindGLTextures_slot_to_unit_witness :
    ∃ s1, SceneManager.BindGLTextures
        { scene :=
            { m_pShaderManager := none
              m_textureIDs := [⟨"floor", 7⟩, ⟨"wall", 9⟩] ++ List.replicate 14 ⟨"/0", 0⟩
              m_loadedTextures := 2 }
          gl := GLContext.initial, stbi := [], cout := [] } = some s1 ∧
      s1.gl.calls = [GLCall.activeTexture 0, GLCall.bindTexture 7,
        GLCall.activeTexture 1, GLCall.bindTexture 9] :=
  (SceneManager.BindGLTextures_slot_to_unit
    { scene :=
        { m_pShaderManager := none
          m_textureIDs := [⟨"floor", 7⟩, ⟨"wall", 9⟩] ++ List.replicate 14 ⟨"/0", 0⟩
          m_loadedTextures := 2 }
      gl := GLContext.initial, stbi := [], cout := [] }
    ⟨by decide, by decide, by decide⟩).elim
    (fun s1 h => ⟨s1, h.1, h.2.1.trans (by decide)⟩)

/-! ## Destroying -/

/-- Deleting a list of names one after the other: each deletion is logged and
the names leave the set of textures in use. -/
theorem glDeleteTextures_foldl (hs : List Nat) :
    ∀ gl : GLContext,
      (hs.foldl (fun g h => glDeleteTextures h g) gl).calls =
          gl.calls ++ hs.map GLCall.deleteTextures ∧
        (hs.foldl (fun g h => glDeleteTextures h g) gl).textures =
          gl.textures.filter (fun t => t ∉ hs) := by
  induction hs with
  | nil =>
    intro gl
    simp
  | cons h hs ih =>
    intro gl
    obtain ⟨hc, ht⟩ := ih (glDeleteTextures h gl)
    constructor
    · rw [List.foldl_cons, hc]
      simp [glDeleteTextures]
    · rw [List.foldl_cons, ht]
      simp only [glDeleteTextures, List.filter_filter]
      apply List.filter_congr
      intro t _
      simp [List.mem_cons, not_or, Bool.and_comm]

/-- The destroy loop over `k` slots starting at `i` inside the table runs to
the end: the visited slots have handle 0 afterwards, the other slots and all
tags are untouched, and the non-zero handles met were deleted in slot order. -/
theorem SceneManager.DestroyGLTextures_loop_spec :
    ∀ (k i : Nat) (ids : List TEXTURE_INFO) (gl : GLContext), i + k ≤ ids.length →
      ∃ ids1 gl1, SceneManager.DestroyGLTextures.loop k i ids gl = some (ids1, gl1) ∧
        ids1.length = ids.length ∧
        (∀ j : Nat, ids1[j]? =
          if i ≤ j ∧ j < i + k then (ids[j]?).map (fun t => { t with ID := 0 }) else ids[j]?) ∧
        gl1 = ((((ids.drop i).take k).map (fun t => t.ID)).filter (fun h => h ≠ 0)).foldl
          (fun g h => glDeleteTextures h g) gl := by
  intro k
  induction k with
  | zero =>
    intro i ids gl _
    refine ⟨ids, gl, rfl, rfl, ?_, by simp⟩
    intro j
    have hno : ¬ (i ≤ j ∧ j < i + 0) := by omega
    rw [if_neg hno]
  | succ k ih =>
    intro i ids gl hi
    have hlt : i < ids.length := by omega
    have hget : ids[i]? = some ids[i] := List.getElem?_eq_getElem hlt
    have hd : (ids.drop i).take (k + 1) = ids[i] :: (ids.drop (i + 1)).take k := by
      rw [List.drop_eq_getElem_cons hlt, List.take_succ_cons]
    by_cases hz : (ids[i]).ID = 0
    · obtain ⟨ids1, gl1, h1, hlen1, hpt, hgl⟩ := ih (i + 1) ids gl (by omega)
      refine ⟨ids1, gl1, ?_, hlen1, ?_, ?_⟩
      · simp only [SceneManager.DestroyGLTextures.loop, hget, hz, ne_eq, not_true_eq_false,
          if_false]
        exact h1
      · intro j
        rw [hpt j]
        by_cases hji : j = i
        · subst hji
          have h1 : ¬ (j + 1 ≤ j ∧ j < j + 1 + k) := by omega
          have h2 : j ≤ j ∧ j < j + (k + 1) := by omega
          have heta : ({ (ids[j]) with ID := 0 } : TEXTURE_INFO) = ids[j] := by
            cases hx : ids[j] with
            | mk tg hd0 =>
              rw [hx] at hz
              simp only at hz
              rw [hz]
          simp only [h1, h2, if_false, and_self, if_true, hget, Option.map_some', heta]
        · by_cases hr : i + 1 ≤ j ∧ j < i + 1 + k
          · have h2 : i ≤ j ∧ j < i + (k + 1) := by omega
            simp only [hr, h2, and_self, if_true]
          · have h2 : ¬ (i ≤ j ∧ j < i + (k + 1)) := by omega
            simp only [hr, h2, if_false]
      · rw [hgl, hd]
        simp [hz]
    · obtain ⟨ids1, gl1, h1, hlen1, hpt, hgl⟩ :=
        ih (i + 1) (ids.set i { (ids[i]) with ID := 0 }) (glDeleteTextures (ids[i]).ID gl)
          (by simpa using (by omega : i + 1 + k ≤ ids.length))
      refine ⟨ids1, gl1, ?_, ?_, ?_, ?_⟩
      · simp only [SceneManager.DestroyGLTextures.loop, hget, hz, ne_eq, not_false_eq_true,
          if_true]
        exact h1
      · rw [hlen1]
        simp
      · intro j
        rw [hpt j]
        by_cases hji : j = i
        · subst hji
          have h1 : ¬ (j + 1 ≤ j ∧ j < j + 1 + k) := by omega
          have h2 : j ≤ j ∧ j < j + (k + 1) := by omega
          simp [h1, h2, hget, List.getElem?_set, hlt]
        · have hne : i ≠ j := fun h => hji h.symm
          by_cases hr : i + 1 ≤ j ∧ j < i + 1 + k
          · have h2 : i ≤ j ∧ j < i + (k + 1) := by omega
            simp only [hr, h2, and_self, if_true, List.getElem?_set_ne hne]
          · have h2 : ¬ (i ≤ j ∧ j < i + (k + 1)) := by omega
            simp only [hr, h2, if_false, List.getElem?_set_ne hne]
      · rw [hgl, hd, List.drop_set_of_lt _ _ (Nat.lt_succ_self i)]
        simp [hz]

/-- On an empty cache `DestroyGLTextures` only writes a console line. -/
theorem SceneManager.DestroyGLTextures_empty (s : System) (h : s.scene.m_loadedTextures ≤ 0) :
    SceneManager.DestroyGLTextures s =
      some { s with cout := s.cout ++ [ConsoleLine.noTexturesToDestroy] } := by
  simp [SceneManager.DestroyGLTextures, h]

/-- C8. (1) On a well-formed state with occupied count `n > 0`,
`DestroyGLTextures` deletes exactly the non-zero handles held in slots
0, …, n-1 (one `glDeleteTextures` per handle, in slot order, and nothing else
on the OpenGL context), leaves every slot below `n` with handle 0 and its tag,
leaves the slots from `n` on untouched, resets the count to 0 and keeps the
table at 16 slots; a second call right after it returns, deletes nothing and
changes neither the object nor the OpenGL context nor the decoder log (it
writes the console line "NO TEXTURES TO DESTROY.").  (2) The same holds for
any call on an empty cache. -/
theorem SceneManager.DestroyGLTextures_releases_and_idempotent :
    (∀ s : System, s.scene.WellFormed → 0 < s.scene.m_loadedTextures →
      ∃ s1, SceneManager.DestroyGLTextures s = some s1 ∧
        s1.gl.calls = s.gl.calls ++ s.scene.occupiedHandles.map GLCall.deleteTextures ∧
        s1.gl.textures = s.gl.textures.filter (fun t => t ∉ s.scene.occupiedHandles) ∧
        (∀ i : Nat, (i : Int) < s.scene.m_loadedTextures →
          s1.scene.m_textureIDs[i]? =
            (s.scene.m_textureIDs[i]?).map (fun t => { t with ID := 0 })) ∧
        (∀ i : Nat, s.scene.m_loadedTextures ≤ (i : Int) →
          s1.scene.m_textureIDs[i]? = s.scene.m_textureIDs[i]?) ∧
        s1.scene.m_loadedTextures = 0 ∧ s1.scene.m_textureIDs.length = 16 ∧
        s1.scene.m_pShaderManager = s.scene.m_pShaderManager ∧ s1.stbi = s.stbi ∧
        ∃ s2, SceneManager.DestroyGLTextures s1 = some s2 ∧
          s2.scene = s1.scene ∧ s2.gl = s1.gl ∧ s2.stbi = s1.stbi ∧
          s2.cout = s1.cout ++ [ConsoleLine.noTexturesToDestroy]) ∧
    (∀ s : System, s.scene.m_loadedTextures = 0 →
      ∃ s1, SceneManager.DestroyGLTextures s = some s1 ∧
        s1.scene = s.scene ∧ s1.gl = s.gl ∧ s1.stbi = s.stbi ∧
        s1.cout = s.cout ++ [ConsoleLine.noTexturesToDestroy]) := by
  constructor
  · intro s hwf hpos
    obtain ⟨hlen, h0, h16⟩ := hwf
    obtain ⟨ids1, gl1, h1, hlen1, hpt, hgl⟩ := SceneManager.DestroyGLTextures_loop_spec
      s.scene.m_loadedTextures.toNat 0 s.scene.m_textureIDs s.gl (by omega)
    have hnot : ¬ s.scene.m_loadedTextures ≤ 0 := by omega
    have hrel : (((s.scene.m_textureIDs.drop 0).take s.scene.m_loadedTextures.toNat).map
        (fun t => t.ID)).filter (fun h => h ≠ 0) = s.scene.occupiedHandles := by
      simp [SceneManager.occupiedHandles]
    rw [hrel] at hgl
    obtain ⟨hcalls, htex⟩ := glDeleteTextures_foldl s.scene.occupiedHandles s.gl
    rw [← hgl] at hcalls htex
    refine ⟨{ s with
        scene := { s.scene with m_textureIDs := ids1, m_loadedTextures := 0 }
        gl := gl1
        cout := s.cout ++ [ConsoleLine.texturesDestroyed] }, ?_, hcalls, htex, ?_, ?_, rfl,
      by simpa [hlen] using hlen1, rfl, rfl, ?_⟩
    · simp only [SceneManager.DestroyGLTextures, hnot, if_false, h1]
    · intro i hi
      have hin : 0 ≤ i ∧ i < 0 + s.scene.m_loadedTextures.toNat := by omega
      show ids1[i]? = _
      rw [hpt i, if_pos hin]
    · intro i hi
      have hout : ¬ (0 ≤ i ∧ i < 0 + s.scene.m_loadedTextures.toNat) := by omega
      show ids1[i]? = _
      rw [hpt i, if_neg hout]
    · exact ⟨_, SceneManager.DestroyGLTextures_empty _ (le_refl 0), rfl, rfl, rfl, rfl⟩
  · intro s hz
    exact ⟨_, SceneManager.DestroyGLTextures_empty s (by omega), rfl, rfl, rfl, rfl⟩

/-- C8 at a concrete input: two occupied slots, the second with handle 0; only
handle 7 is deleted. -/
theorem SceneManager.DestroyGLTextures_releases_and_idempotent_witness :
    ∃ s1, SceneManager.DestroyGLTextures
        { scene :=
            { m_pShaderManager := none
              m_textureIDs := [⟨"floor", 7⟩, ⟨"wall", 0⟩] ++ List.replicate 14 ⟨"/0", 0⟩
              m_loadedTextures := 2 }
          gl := { textures := [7], activeTexture := 0, binding2D := fun _ => 0, calls := [] }
          stbi := [], cout := [] } = some s1 ∧
      s1.gl.calls = [GLCall.deleteTextures 7] ∧ s1.gl.textures = [] ∧
      s1.scene.m_loadedTextures = 0 :=
  (SceneManager.DestroyGLTextures_releases_and_idempotent.1
    { scene :=
        { m_pShaderManager := none
          m_textureIDs := [⟨"floor", 7⟩, ⟨"wall", 0⟩] ++ List.replicate 14 ⟨"/0", 0⟩
          m_loadedTextures := 2 }
      gl := { textures := [7], activeTexture := 0, binding2D := fun _ => 0, calls := [] }
      stbi := [], cout := [] }
    ⟨by decide, by decide, by decide⟩ (by decide)).elim
    (fun s1 h => ⟨s1, h.1, h.2.1.trans (by decide), h.2.2.1.trans (by decide), h.2.2.2.2.2.1⟩)

/-! ## Selecting a texture for a draw -/

/-- On a well-formed state the lookup returns a value. -/
theorem SceneManager.FindTextureSlot_total (m : SceneManager) (tag : String)
    (hwf : m.WellFormed) : ∃ r : Int, m.FindTextureSlot tag = some r := by
  obtain ⟨hlen, h0, h16⟩ := hwf
  obtain ⟨r, hr, _⟩ := SceneManager.FindTextureSlot_loop_spec m.m_textureIDs tag
    m.m_loadedTextures.toNat 0 (by omega)
  exact ⟨r, hr⟩

/-- On a well-formed state `BindGLTextures` returns and leaves the object alone. -/
theorem SceneManager.BindGLTextures_total (s : System) (hwf : s.scene.WellFormed) :
    ∃ s1, SceneManager.BindGLTextures s = some s1 ∧ s1.scene = s.scene := by
  obtain ⟨hlen, h0, h16⟩ := hwf
  obtain ⟨gl1, h1, _, _⟩ := SceneManager.BindGLTextures_loop_spec s.scene.m_textureIDs
    s.scene.m_loadedTextures.toNat 0 s.gl (by omega)
  exact ⟨{ s with gl := gl1 }, by simp only [SceneManager.BindGLTextures, h1], rfl⟩

/-- With a shader manager and a lookup result `r`, `SetShaderTexture` writes
the two uniforms when `r` is not -1 and nothing otherwise. -/
theorem SceneManager.SetShaderTexture_eq (tag : String) (s : System) (sh : ShaderManager)
    (r : Int) (hsh : s.scene.m_pShaderManager = some sh)
    (hr : s.scene.FindTextureSlot tag = some r) :
    SceneManager.SetShaderTexture tag s =
      if r ≠ -1 then
        some { s with
          scene := { s.scene with
            m_pShaderManager := some
              { uniforms := sh.uniforms ++
                  [("bUseTexture", UniformValue.intValue 1),
                   ("objectTexture", UniformValue.sampler2DValue r)] } } }
      else some s := by
  simp only [SceneManager.SetShaderTexture, hsh, hr, ShaderManager.setSampler2DValue,
    ShaderManager.setIntValue, List.append_assoc, List.singleton_append]

/-- C7. (1) On a well-formed state with a non-null shader manager,
`SetShaderTexture(tag)` returns; with `r` the value of `FindTextureSlot(tag)`,
when `r` is not -1 exactly two uniform writes are appended, `bUseTexture = 1`
(true) then `objectTexture = r`, and when `r` is -1 no uniform is written; in
both cases the slot table, the count, the OpenGL context, the decoder log and
the console are unchanged.  (2) `SetShaderTexture("missing")` on a freshly
constructed object changes nothing at all.  (3) After a first successful load
of `tag` into a freshly constructed object and `BindGLTextures`,
`SetShaderTexture(tag)` writes `bUseTexture = 1` and `objectTexture = 0`. -/
theorem SceneManager.SetShaderTexture_writes :
    (∀ (tag : String) (s : System) (sh : ShaderManager),
      s.scene.WellFormed → s.scene.m_pShaderManager = some sh →
      ∃ r s1, s.scene.FindTextureSlot tag = some r ∧
        SceneManager.SetShaderTexture tag s = some s1 ∧
        (r ≠ -1 → s1.scene.m_pShaderManager = some
          { uniforms := sh.uniforms ++
              [("bUseTexture", UniformValue.intValue 1),
               ("objectTexture", UniformValue.sampler2DValue r)] }) ∧
        (r = -1 → s1.scene.m_pShaderManager = some sh) ∧
        s1.scene.m_textureIDs = s.scene.m_textureIDs ∧
        s1.scene.m_loadedTextures = s.scene.m_loadedTextures ∧
        s1.gl = s.gl ∧ s1.stbi = s.stbi ∧ s1.cout = s.cout) ∧
    (∀ (sh : ShaderManager) (gl : GLContext) (stbi : List StbiCall) (cout : List ConsoleLine),
      SceneManager.SetShaderTexture "missing" (System.constructed (some sh) gl stbi cout) =
        some (System.constructed (some sh) gl stbi cout)) ∧
    (∀ (sh : ShaderManager) (gl : GLContext) (stbi : List StbiCall) (cout : List ConsoleLine)
      (img : Image) (textureID : Nat) (filename tag : String),
      (img.colorChannels = 3 ∨ img.colorChannels = 4) →
      ∃ s1 s2 s3, SceneManager.CreateGLTexture (some img) textureID filename tag
          (System.constructed (some sh) gl stbi cout) = some (true, s1) ∧
        SceneManager.BindGLTextures s1 = some s2 ∧
        SceneManager.SetShaderTexture tag s2 = some s3 ∧
        s3.scene.m_pShaderManager = some
          { uniforms := sh.uniforms ++
              [("bUseTexture", UniformValue.intValue 1),
               ("objectTexture", UniformValue.sampler2DValue 0)] }) := by
  refine ⟨?_, ?_, ?_⟩
  · intro tag s sh hwf hsh
    obtain ⟨r, hr⟩ := SceneManager.FindTextureSlot_total s.scene tag hwf
    have heq := SceneManager.SetShaderTexture_eq tag s sh r hsh hr
    by_cases hneg : r = -1
    · rw [if_neg (not_not.mpr hneg)] at heq
      exact ⟨r, s, hr, heq, fun h => absurd hneg h, fun _ => hsh, rfl, rfl, rfl, rfl, rfl⟩
    · rw [if_pos hneg] at heq
      exact ⟨r, _, hr, heq, fun _ => rfl, fun h => absurd h hneg, rfl, rfl, rfl, rfl, rfl⟩
  · intro sh gl stbi cout
    rfl
  · intro sh gl stbi cout img textureID filename tag hch
    obtain ⟨s1, h1, hwf1, _, hf1⟩ := SceneManager.CreateGLTexture_then_find img textureID
      filename tag (System.constructed (some sh) gl stbi cout)
      (SceneManager.construct_wellFormed (some sh))
      (by simp [System.constructed, SceneManager.construct]) hch
    obtain ⟨_, hscene1⟩ := SceneManager.CreateGLTexture_true_inv (some img) textureID filename
      tag (System.constructed (some sh) gl stbi cout) s1
      (SceneManager.construct_wellFormed (some sh)) h1
    obtain ⟨s2, h2, hscene2⟩ := SceneManager.BindGLTextures_total s1 hwf1
    have e0 : (System.constructed (some sh) gl stbi cout).scene.FindTextureSlot tag =
        some (-1) := rfl
    have hz : (System.constructed (some sh) gl stbi cout).scene.m_loadedTextures = 0 := rfl
    have hfind : s2.scene.FindTextureSlot tag = some 0 := by
      rw [hscene2, hf1 tag, e0]
      simp [hz]
    have hsh : s2.scene.m_pShaderManager = some sh := by
      rw [hscene2, hscene1]
      rfl
    have heq := SceneManager.SetShaderTexture_eq tag s2 sh 0 hsh hfind
    rw [if_pos (by decide)] at heq
    exact ⟨s1, s2, _, h1, h2, heq, rfl⟩

/-- C7 at a concrete input: `"floor"` in slot 0 of a one-slot cache. -/
theorem SceneManager.SetShaderTexture_writes_witness :
    ∃ r s1, SceneManager.FindTextureSlot
        { m_pShaderManager := some { uniforms := [] }
          m_textureIDs := [⟨"floor", 7⟩] ++ List.replicate 15 ⟨"/0", 0⟩
          m_loadedTextures := 1 } "floor" = some r ∧
      SceneManager.SetShaderTexture "floor"
        { scene :=
            { m_pShaderManager := some { uniforms := [] }
              m_textureIDs := [⟨"floor", 7⟩] ++ List.replicate 15 ⟨"/0", 0⟩
              m_loadedTextures := 1 }
          gl := GLContext.initial, stbi := [], cout := [] } = some s1 ∧
      s1.scene.m_loadedTextures = 1 :=
  (SceneManager.SetShaderTexture_writes.1 "floor"
    { scene :=
        { m_pShaderManager := some { uniforms := [] }
          m_textureIDs := [⟨"floor", 7⟩] ++ List.replicate 15 ⟨"/0", 0⟩
          m_loadedTextures := 1 }
      gl := GLContext.initial, stbi := [], cout := [] } { uniforms := [] }
    ⟨by decide, by decide, by decide⟩ rfl).elim
    (fun r h => h.elim (fun s1 h2 => ⟨r, s1, h2.1, h2.2.1, h2.2.2.2.2.2.1⟩))

/-! ## The count stays within the table -/

/-- Each method call on a well-formed state returns a well-formed state. -/
theorem MethodCall.run_wellFormed (c : MethodCall) (s : System) (hwf : s.scene.WellFormed) :
    ∃ s1, c.run s = some s1 ∧ s1.scene.WellFormed := by
  cases c with
  | CreateGLTexture image textureID filename tag =>
    obtain ⟨b, s1, h1, hwf1, _⟩ :=
      SceneManager.CreateGLTexture_step image textureID filename tag s hwf
    exact ⟨s1, by simp [MethodCall.run, h1], hwf1⟩
  | BindGLTextures =>
    obtain ⟨s1, h1, hscene⟩ := SceneManager.BindGLTextures_total s hwf
    exact ⟨s1, h1, by rw [hscene]; exact hwf⟩
  | DestroyGLTextures =>
    by_cases hz : s.scene.m_loadedTextures ≤ 0
    · exact ⟨_, SceneManager.DestroyGLTextures_empty s hz, hwf⟩
    · obtain ⟨hlen, h0, h16⟩ := hwf
      obtain ⟨ids1, gl1, h1, hlen1, _, _⟩ := SceneManager.DestroyGLTextures_loop_spec
        s.scene.m_loadedTextures.toNat 0 s.scene.m_textureIDs s.gl (by omega)
      refine ⟨{ s with
          scene := { s.scene with m_textureIDs := ids1, m_loadedTextures := 0 }
          gl := gl1
          cout := s.cout ++ [ConsoleLine.texturesDestroyed] }, ?_, ?_⟩
      · simp only [MethodCall.run, SceneManager.DestroyGLTextures, hz, if_false, h1]
      · exact ⟨by rw [← hlen]; exact hlen1, le_refl 0, show (0 : Int) ≤ 16 by decide⟩
  | FindTextureSlot tag =>
    obtain ⟨r, hr⟩ := SceneManager.FindTextureSlot_total s.scene tag hwf
    exact ⟨s, by simp [MethodCall.run, hr], hwf⟩
  | SetShaderTexture tag =>
    cases hsh : s.scene.m_pShaderManager with
    | none => exact ⟨s, by simp [MethodCall.run, SceneManager.SetShaderTexture, hsh], hwf⟩
    | some sh =>
      obtain ⟨r, hr⟩ := SceneManager.FindTextureSlot_total s.scene tag hwf
      have heq := SceneManager.SetShaderTexture_eq tag s sh r hsh hr
      by_cases hneg : r = -1
      · rw [if_neg (not_not.mpr hneg)] at heq
        exact ⟨s, heq, hwf⟩
      · rw [if_pos hneg] at heq
        exact ⟨_, heq, hwf⟩

/-- Every sequence of method calls on a well-formed state runs to the end in
a well-formed state. -/
theorem MethodCall.runAll_wellFormed (cs : List MethodCall) :
    ∀ s : System, s.scene.WellFormed →
      ∃ s1, MethodCall.runAll cs s = some s1 ∧ s1.scene.WellFormed := by
  induction cs with
  | nil =>
    intro s hwf
    exact ⟨s, rfl, hwf⟩
  | cons c cs ih =>
    intro s hwf
    obtain ⟨s1, h1, hwf1⟩ := MethodCall.run_wellFormed c s hwf
    obtain ⟨s2, h2, hwf2⟩ := ih s1 hwf1
    exact ⟨s2, by simp only [MethodCall.runAll, h1, h2], hwf2⟩

/-- C10. From the constructor's state every sequence of `CreateGLTexture`,
`BindGLTextures`, `DestroyGLTextures`, `FindTextureSlot` and
`SetShaderTexture` calls runs to the end without an access outside the slot
table (the run is not `none`), and in the state reached the count satisfies
`0 ≤ m_loadedTextures ≤ 16` and the table has 16 slots. -/
theorem MethodCall.runAll_count_within_table (p : Option ShaderManager) (gl : GLContext)
    (stbi : List StbiCall) (cout : List ConsoleLine) (cs : List MethodCall) :
    ∃ s, MethodCall.runAll cs (System.constructed p gl stbi cout) = some s ∧
      0 ≤ s.scene.m_loadedTextures ∧ s.scene.m_loadedTextures ≤ 16 ∧
      s.scene.m_textureIDs.length = 16 := by
  obtain ⟨s, hrun, hlen, h0, h16⟩ := MethodCall.runAll_wellFormed cs
    (System.constructed p gl stbi cout) (SceneManager.construct_wellFormed p)
  exact ⟨s, hrun, h0, h16, hlen⟩

/-! ## The model transform -/

/-- A rotation about a coordinate axis by an angle with cosine 1 and sine 0 is
the identity matrix. -/
theorem glm.rotate_eq_one {R : Type} [CommRing R] (lib : glm.ScalarLib R) (a : R)
    (axis : glm.vec3 R) (h1 : lib.inversesqrt 1 = 1) (hc : lib.cos a = 1) (hs : lib.sin a = 0)
    (haxis : axis = ⟨1, 0, 0⟩ ∨ axis = ⟨0, 1, 0⟩ ∨ axis = ⟨0, 0, 1⟩) :
    glm.rotate lib a axis = 1 := by
  rcases haxis with h | h | h <;> subst h <;> ext i j <;> fin_cases i <;> fin_cases j <;>
    simp [glm.rotate, glm.normalize, h1, hc, hs, Matrix.vecHead, Matrix.vecTail]

/-- Scaling by (1, 1, 1) is the identity matrix. -/
theorem glm.scale_one {R : Type} [CommRing R] : glm.scale (⟨1, 1, 1⟩ : glm.vec3 R) = 1 := by
  ext i j
  fin_cases i <;> fin_cases j <;> simp [glm.scale, Matrix.vecHead, Matrix.vecTail]

/-- Translating by (0, 0, 0) is the identity matrix. -/
theorem glm.translate_zero {R : Type} [CommRing R] :
    glm.translate (⟨0, 0, 0⟩ : glm.vec3 R) = 1 := by
  ext i j
  fin_cases i <;> fin_cases j <;> simp [glm.translate, Matrix.vecHead, Matrix.vecTail]

/-- With a shader manager, `SetTransformations` appends the single write of
`modelView` to `"model"` and changes nothing else. -/
theorem SceneManager.SetTransformations_eq (lib : glm.ScalarLib ℚ) (scaleXYZ : glm.vec3 ℚ)
    (X Y Z : ℚ) (positionXYZ : glm.vec3 ℚ) (s : System) (sh : ShaderManager)
    (hsh : s.scene.m_pShaderManager = some sh) :
    SceneManager.SetTransformations lib scaleXYZ X Y Z positionXYZ s =
      { s with
        scene := { s.scene with
          m_pShaderManager := some
            { uniforms := sh.uniforms ++
                [("model", UniformValue.mat4Value
                  (SceneManager.SetTransformations.modelView lib scaleXYZ X Y Z positionXYZ))] } } } := by
  simp only [SceneManager.SetTransformations, hsh, ShaderManager.setMat4Value]

/-- C12. (1) Over any commutative ring, when the scalar functions are exact at
0 (`inversesqrt 1 = 1`, `cos (radians 0) = 1`, `sin (radians 0) = 0`), the
matrix built for scale (1,1,1), angles 0, 0, 0 and translation (0,0,0) is the
identity.  (2) With such functions and a shader manager, that call of
`SetTransformations` appends exactly one uniform write, the 4x4 identity to
`"model"`, and leaves everything else as it was, whatever the state.  (3) For
any arguments the call appends exactly the write of `modelView`, which is a
function of the arguments alone, and with a null shader manager it changes
nothing: no state is kept between calls. -/
theorem SceneManager.SetTransformations_identity :
    (∀ (R : Type) [CommRing R] (lib : glm.ScalarLib R),
      lib.inversesqrt 1 = 1 → lib.cos (lib.radians 0) = 1 → lib.sin (lib.radians 0) = 0 →
      SceneManager.SetTransformations.modelView lib ⟨1, 1, 1⟩ 0 0 0 ⟨0, 0, 0⟩ = 1) ∧
    (∀ (lib : glm.ScalarLib ℚ) (s : System) (sh : ShaderManager),
      lib.inversesqrt 1 = 1 → lib.cos (lib.radians 0) = 1 → lib.sin (lib.radians 0) = 0 →
      s.scene.m_pShaderManager = some sh →
      SceneManager.SetTransformations lib ⟨1, 1, 1⟩ 0 0 0 ⟨0, 0, 0⟩ s =
        { s with
          scene := { s.scene with
            m_pShaderManager := some
              { uniforms := sh.uniforms ++ [("model", UniformValue.mat4Value 1)] } } }) ∧
    (∀ (lib : glm.ScalarLib ℚ) (scaleXYZ : glm.vec3 ℚ) (X Y Z : ℚ) (positionXYZ : glm.vec3 ℚ)
      (s : System),
      (∀ sh, s.scene.m_pShaderManager = some sh →
        SceneManager.SetTransformations lib scaleXYZ X Y Z positionXYZ s =
          { s with
            scene := { s.scene with
              m_pShaderManager := some
                { uniforms := sh.uniforms ++
                    [("model", UniformValue.mat4Value
                      (SceneManager.SetTransformations.modelView lib scaleXYZ X Y Z
                        positionXYZ))] } } }) ∧
      (s.scene.m_pShaderManager = none →
        SceneManager.SetTransformations lib scaleXYZ X Y Z positionXYZ s = s)) := by
  have hid : ∀ (R : Type) [CommRing R] (lib : glm.ScalarLib R),
      lib.inversesqrt 1 = 1 → lib.cos (lib.radians 0) = 1 → lib.sin (lib.radians 0) = 0 →
      SceneManager.SetTransformations.modelView lib ⟨1, 1, 1⟩ 0 0 0 ⟨0, 0, 0⟩ = 1 := by
    intro R _ lib h1 hc hs
    simp only [SceneManager.SetTransformations.modelView, glm.scale_one, glm.translate_zero,
      glm.rotate_eq_one lib (lib.radians 0) ⟨1, 0, 0⟩ h1 hc hs (Or.inl rfl),
      glm.rotate_eq_one lib (lib.radians 0) ⟨0, 1, 0⟩ h1 hc hs (Or.inr (Or.inl rfl)),
      glm.rotate_eq_one lib (lib.radians 0) ⟨0, 0, 1⟩ h1 hc hs (Or.inr (Or.inr rfl)), mul_one]
  refine ⟨hid, ?_, ?_⟩
  · intro lib s sh h1 hc hs hsh
    rw [SceneManager.SetTransformations_eq lib _ _ _ _ _ s sh hsh, hid ℚ lib h1 hc hs]
  · intro lib scaleXYZ X Y Z positionXYZ s
    refine ⟨fun sh hsh => SceneManager.SetTransformations_eq lib _ _ _ _ _ s sh hsh, ?_⟩
    intro hnone
    simp only [SceneManager.SetTransformations, hnone]

/-- C12 at a concrete input: the series library on a freshly constructed
object with an empty uniform log. -/
theorem SceneManager.SetTransformations_identity_witness :
    (SceneManager.SetTransformations glm.ScalarLib.series ⟨1, 1, 1⟩ 0 0 0 ⟨0, 0, 0⟩
      (System.constructed (some { uniforms := [] }) GLContext.initial [] [])
      ).scene.m_pShaderManager =
        some { uniforms := [("model", UniformValue.mat4Value 1)] } :=
  (congrArg (fun s : System => s.scene.m_pShaderManager)
    (SceneManager.SetTransformations_identity.2.1 glm.ScalarLib.series
      (System.constructed (some { uniforms := [] }) GLContext.initial [] []) { uniforms := [] }
      (by norm_num [glm.ScalarLib.series]) (by norm_num [glm.ScalarLib.series])
      (by norm_num [glm.ScalarLib.series]) rfl)).trans rfl

/-! ## The reference scene -/

/-- No write, no value. -/
theorem UniformValue.held_nil (name : String) : UniformValue.held name [] = none := rfl

/-- With one earlier write in front, a uniform holds what the later writes
give it, and else the value of that write if it was to it. -/
theorem UniformValue.held_cons (name n : String) (v : UniformValue)
    (writes : List (String × UniformValue)) :
    UniformValue.held name ((n, v) :: writes) =
      match UniformValue.held name writes with
      | some w => some w
      | none => if n = name then some v else none := by
  simp only [UniformValue.held, List.reverse_cons, List.find?_append]
  cases hf : List.find? (fun w => decide (w.1 = name)) writes.reverse with
  | some w => simp
  | none =>
    by_cases h : n = name <;> simp [List.find?_cons, h]

/-- After further writes, a uniform holds what those writes give it, and else
what it held before. -/
theorem UniformValue.held_append (name : String) (earlier later : List (String × UniformValue)) :
    UniformValue.held name (earlier ++ later) =
      match UniformValue.held name later with
      | some w => some w
      | none => UniformValue.held name earlier := by
  simp only [UniformValue.held, List.reverse_append, List.find?_append]
  cases hf : List.find? (fun w => decide (w.1 = name)) later.reverse with
  | some w => simp
  | none => simp

/-- A run of loads that all decode to 3 or 4 channels and fit below capacity
stores one slot per request, in order. -/
theorem SceneManager.createAll_stored (qs : List LoadRequest) :
    ∀ s : System, s.scene.WellFormed →
      (∀ q ∈ qs, ∃ img, q.image = some img ∧ (img.colorChannels = 3 ∨ img.colorChannels = 4)) →
      s.scene.m_loadedTextures + (qs.length : Int) ≤ 16 →
      ∃ s1, SceneManager.createAll qs s = some (List.replicate qs.length true, s1) ∧
        s1.scene = qs.foldl
          (fun m q => { m with
            m_textureIDs := m.m_textureIDs.set m.m_loadedTextures.toNat
              { tag := q.tag, ID := q.textureID }
            m_loadedTextures := m.m_loadedTextures + 1 }) s.scene := by
  induction qs with
  | nil =>
    intro s _ _ _
    exact ⟨s, rfl, rfl⟩
  | cons q qs ih =>
    intro s hwf hok hfit
    obtain ⟨img, himg, hch⟩ := hok q (List.mem_cons_self q qs)
    have hlen : ((q :: qs).length : Int) = (qs.length : Int) + 1 := by simp
    have hn : s.scene.m_loadedTextures < 16 := by omega
    obtain ⟨s1, h1, hscene, _⟩ :=
      SceneManager.CreateGLTexture_stored img q.textureID q.filename q.tag s hwf hn hch
    obtain ⟨b, s1b, h1b, hwf1, hc1⟩ :=
      SceneManager.CreateGLTexture_step (some img) q.textureID q.filename q.tag s hwf
    rw [h1] at h1b
    simp only [Option.some.injEq, Prod.mk.injEq] at h1b
    obtain ⟨hb, hs⟩ := h1b
    subst hb
    subst hs
    have hc1b : s1.scene.m_loadedTextures = s.scene.m_loadedTextures + 1 := by simpa using hc1
    obtain ⟨s2, h2, hscene2⟩ := ih s1 hwf1
      (fun q2 hq2 => hok q2 (List.mem_cons_of_mem q hq2)) (by omega)
    refine ⟨s2, ?_, ?_⟩
    · simp [SceneManager.createAll, himg, h1, h2, List.replicate_succ]
    · rw [hscene2, hscene, List.foldl_cons]

/-- The slot table after the twelve loads of `LoadSceneTextures` all stored a
texture into a fresh table. -/
theorem SceneManager.LoadSceneTextures_all_loaded (answer : Nat → Option Image × Nat)
    (sh : ShaderManager) (gl : GLContext) (stbi : List StbiCall) (cout : List ConsoleLine)
    (hok : ∀ i : Nat, i < 12 → ∃ img, (answer i).1 = some img ∧
      (img.colorChannels = 3 ∨ img.colorChannels = 4)) :
    ∃ s2, SceneManager.LoadSceneTextures answer (System.constructed (some sh) gl stbi cout) =
        some s2 ∧
      s2.scene =
        { m_pShaderManager := some sh
          m_textureIDs :=
            [⟨"cake", (answer 0).2⟩, ⟨"floor", (answer 1).2⟩, ⟨"fridge", (answer 2).2⟩,
             ⟨"wall", (answer 3).2⟩, ⟨"wood", (answer 4).2⟩, ⟨"grass", (answer 5).2⟩,
             ⟨"sky", (answer 6).2⟩, ⟨"ceiling", (answer 7).2⟩, ⟨"", (answer 8).2⟩,
             ⟨"paper", (answer 9).2⟩, ⟨"paper2", (answer 10).2⟩,
             ⟨"frosting", (answer 11).2⟩] ++ List.replicate 4 ⟨"/0", 0⟩
          m_loadedTextures := 12 } := by
  have hreq : ∀ q ∈ SceneManager.LoadSceneTextures.requests answer,
      ∃ img, q.image = some img ∧ (img.colorChannels = 3 ∨ img.colorChannels = 4) := by
    intro q hq
    simp only [SceneManager.LoadSceneTextures.requests, List.mem_cons, List.mem_singleton,
      List.not_mem_nil, or_false] at hq
    rcases hq with h | h | h | h | h | h | h | h | h | h | h | h <;> subst h
    · exact hok 0 (by decide)
    · exact hok 1 (by decide)
    · exact hok 2 (by decide)
    · exact hok 3 (by decide)
    · exact hok 4 (by decide)
    · exact hok 5 (by decide)
    · exact hok 6 (by decide)
    · exact hok 7 (by decide)
    · exact hok 8 (by decide)
    · exact hok 9 (by decide)
    · exact hok 10 (by decide)
    · exact hok 11 (by decide)
  obtain ⟨s1, h1, hscene1⟩ := SceneManager.createAll_stored
    (SceneManager.LoadSceneTextures.requests answer)
    { System.constructed (some sh) gl stbi cout with
      cout := cout ++ [ConsoleLine.loadingTextures] }
    (SceneManager.construct_wellFormed (some sh)) hreq
    (by simp [System.constructed, SceneManager.construct, SceneManager.LoadSceneTextures.requests])
  have hexp : s1.scene =
      { m_pShaderManager := some sh
        m_textureIDs :=
          [⟨"cake", (answer 0).2⟩, ⟨"floor", (answer 1).2⟩, ⟨"fridge", (answer 2).2⟩,
           ⟨"wall", (answer 3).2⟩, ⟨"wood", (answer 4).2⟩, ⟨"grass", (answer 5).2⟩,
           ⟨"sky", (answer 6).2⟩, ⟨"ceiling", (answer 7).2⟩, ⟨"", (answer 8).2⟩,
           ⟨"paper", (answer 9).2⟩, ⟨"paper2", (answer 10).2⟩,
           ⟨"frosting", (answer 11).2⟩] ++ List.replicate 4 ⟨"/0", 0⟩
        m_loadedTextures := 12 } := by
    rw [hscene1]
    rfl
  have hwf1 : s1.scene.WellFormed := by
    rw [hexp]
    exact ⟨by simp, by simp, by simp⟩
  obtain ⟨s2, h2, hscene2⟩ := SceneManager.BindGLTextures_total s1 hwf1
  refine ⟨{ s2 with cout := s2.cout ++ [ConsoleLine.allTexturesLoaded] }, ?_, ?_⟩
  · have h1b : SceneManager.createAll (SceneManager.LoadSceneTextures.requests answer)
        { scene := (System.constructed (some sh) gl stbi cout).scene
          gl := (System.constructed (some sh) gl stbi cout).gl
          stbi := (System.constructed (some sh) gl stbi cout).stbi
          cout := (System.constructed (some sh) gl stbi cout).cout ++
            [ConsoleLine.loadingTextures] } =
        some (List.replicate (SceneManager.LoadSceneTextures.requests answer).length true, s1) :=
      h1
    simp only [SceneManager.LoadSceneTextures, h1b, h2]
  · show s2.scene = _
    rw [hscene2, hexp]

/-- The trim section when the tag `"trim"` is in no occupied slot: texturing is
switched on, no sampler is written, and the four boxes are drawn. -/
theorem SceneManager.RenderScene.trim_eq (lib : glm.ScalarLib ℚ) (r : Renderer)
    (u : List (String × UniformValue))
    (hsh : r.system.scene.m_pShaderManager = some { uniforms := u })
    (hfind : r.system.scene.FindTextureSlot "trim" = some (-1)) :
    SceneManager.RenderScene.trim lib r = some
      { system := { r.system with
          scene := { r.system.scene with
            m_pShaderManager := some
              { uniforms := u ++
                  [("bUseTexture", UniformValue.intValue 1),
                   ("model", UniformValue.mat4Value (SceneManager.SetTransformations.modelView
                      lib ⟨25, 0.25, 0.1⟩ 0 0 0 ⟨0, 0.125, -12.45⟩)),
                   ("model", UniformValue.mat4Value (SceneManager.SetTransformations.modelView
                      lib ⟨25, 0.25, 0.1⟩ 0 90 0 ⟨-12.45, 0.125, 0⟩)),
                   ("model", UniformValue.mat4Value (SceneManager.SetTransformations.modelView
                      lib ⟨25, 0.25, 0.1⟩ 0 (-90) 0 ⟨12.45, 0.125, 0⟩)),
                   ("model", UniformValue.mat4Value (SceneManager.SetTransformations.modelView
                      lib ⟨25, 0.25, 0.1⟩ 0 180 0 ⟨0, 0.125, 12.45⟩))] } } }
        m_basicMeshes :=
          { draws := r.m_basicMeshes.draws ++
              [{ mesh := Mesh.box
                 uniforms := u ++
                  [("bUseTexture", UniformValue.intValue 1),
                   ("model", UniformValue.mat4Value (SceneManager.SetTransformations.modelView
                      lib ⟨25, 0.25, 0.1⟩ 0 0 0 ⟨0, 0.125, -12.45⟩))] },
               { mesh := Mesh.box
                 uniforms := u ++
                  [("bUseTexture", UniformValue.intValue 1),
                   ("model", UniformValue.mat4Value (SceneManager.SetTransformations.modelView
                      lib ⟨25, 0.25, 0.1⟩ 0 0 0 ⟨0, 0.125, -12.45⟩)),
                   ("model", UniformValue.mat4Value (SceneManager.SetTransformations.modelView
                      lib ⟨25, 0.25, 0.1⟩ 0 90 0 ⟨-12.45, 0.125, 0⟩))] },
               { mesh := Mesh.box
                 uniforms := u ++
                  [("bUseTexture", UniformValue.intValue 1),
                   ("model", UniformValue.mat4Value (SceneManager.SetTransformations.modelView
                      lib ⟨25, 0.25, 0.1⟩ 0 0 0 ⟨0, 0.125, -12.45⟩)),
                   ("model", UniformValue.mat4Value (SceneManager.SetTransformations.modelView
                      lib ⟨25, 0.25, 0.1⟩ 0 90 0 ⟨-12.45, 0.125, 0⟩)),
                   ("model", UniformValue.mat4Value (SceneManager.SetTransformations.modelView
                      lib ⟨25, 0.25, 0.1⟩ 0 (-90) 0 ⟨12.45, 0.125, 0⟩))] },
               { mesh := Mesh.box
                 uniforms := u ++
                  [("bUseTexture", UniformValue.intValue 1),
                   ("model", UniformValue.mat4Value (SceneManager.SetTransformations.modelView
                      lib ⟨25, 0.25, 0.1⟩ 0 0 0 ⟨0, 0.125, -12.45⟩)),
                   ("model", UniformValue.mat4Value (SceneManager.SetTransformations.modelView
                      lib ⟨25, 0.25, 0.1⟩ 0 90 0 ⟨-12.45, 0.125, 0⟩)),
                   ("model", UniformValue.mat4Value (SceneManager.SetTransformations.modelView
                      lib ⟨25, 0.25, 0.1⟩ 0 (-90) 0 ⟨12.45, 0.125, 0⟩)),
                   ("model", UniformValue.mat4Value (SceneManager.SetTransformations.modelView
                      lib ⟨25, 0.25, 0.1⟩ 0 180 0 ⟨0, 0.125, 12.45⟩))] }] } } := by
  have hfind2 : SceneManager.FindTextureSlot.loop r.system.scene.m_textureIDs "trim"
      r.system.scene.m_loadedTextures.toNat 0 = some (-1) := hfind
  simp [SceneManager.RenderScene.trim, Renderer.shader, Renderer.SetShaderTexture,
    Renderer.SetTransformations, Renderer.draw, SceneManager.SetShaderTexture,
    SceneManager.SetTransformations, SceneManager.FindTextureSlot, hsh, hfind2,
    ShaderManager.setIntValue, ShaderManager.setMat4Value]

/-- The start of `RenderScene` up to the floor, on a well-formed state with a
shader manager where `"floor"` is in slot 1: it returns, the cache is
untouched, and the three material uniforms hold the default material. -/
theorem SceneManager.RenderScene.throughFloor_spec (lib : glm.ScalarLib ℚ) (s : System)
    (meshes : ShapeMeshes) (u : List (String × UniformValue)) (hwf : s.scene.WellFormed)
    (hsh : s.scene.m_pShaderManager = some { uniforms := u })
    (hfloor : s.scene.FindTextureSlot "floor" = some 1) :
    ∃ r0 u0, SceneManager.RenderScene.throughFloor lib { system := s, m_basicMeshes := meshes } =
        some r0 ∧
      r0.system.scene = { s.scene with m_pShaderManager := some { uniforms := u0 } } ∧
      UniformValue.held "material.ambientStrength" u0 = some (UniformValue.floatValue 0.025) ∧
      UniformValue.held "material.specularColor" u0 =
        some (UniformValue.vec3Value ⟨0.3, 0.3, 0.3⟩) ∧
      UniformValue.held "material.shininess" u0 = some (UniformValue.floatValue 20) := by
  obtain ⟨s1, hbind, hscene⟩ := SceneManager.BindGLTextures_total s hwf
  obtain ⟨scene1, gl1, stbi1, cout1⟩ := s1
  obtain ⟨⟨p, ids, n⟩, gl, stbi, cout⟩ := s
  simp only at hscene hsh hfloor
  subst hscene
  subst hsh
  have hfloor2 : SceneManager.FindTextureSlot.loop ids "floor" n.toNat 0 = some 1 := hfloor
  simp [SceneManager.RenderScene.throughFloor, hbind, SceneManager.RenderScene.lights,
    SceneManager.RenderScene.materials, SceneManager.RenderScene.floor, Renderer.shaderCalls,
    Renderer.shader, Renderer.SetShaderTexture, Renderer.SetTransformations, Renderer.draw,
    SceneManager.SetShaderTexture, SceneManager.SetTransformations,
    SceneManager.FindTextureSlot, hfloor2, ShaderManager.setIntValue,
    ShaderManager.setMat4Value, ShaderManager.setSampler2DValue, ShaderManager.setFloatValue,
    ShaderManager.setVec3Value, UniformValue.held_append, UniformValue.held_cons,
    UniformValue.held_nil]

/-- The ceiling section when `"ceiling"` is in slot 7: the override, texturing
on, the sampler set to 7, the transform, the draw, and the writes of the three
`saved…` locals. -/
theorem SceneManager.RenderScene.ceiling_spec (lib : glm.ScalarLib ℚ) (r : Renderer)
    (u : List (String × UniformValue))
    (hsh : r.system.scene.m_pShaderManager = some { uniforms := u })
    (hfind : r.system.scene.FindTextureSlot "ceiling" = some 7) :
    ∃ r1, SceneManager.RenderScene.ceiling lib r = some r1 ∧
      r1.system.scene = { r.system.scene with
        m_pShaderManager := some
          { uniforms := u ++
              [("material.ambientStrength", UniformValue.floatValue 0.02),
               ("material.specularColor", UniformValue.vec3Value ⟨0.08, 0.08, 0.08⟩),
               ("material.shininess", UniformValue.floatValue 4),
               ("bUseTexture", UniformValue.intValue 1),
               ("bUseTexture", UniformValue.intValue 1),
               ("objectTexture", UniformValue.sampler2DValue 7),
               ("model", UniformValue.mat4Value (SceneManager.SetTransformations.modelView
                  lib ⟨25, 1, 25⟩ 180 0 0 ⟨0, 12, 0⟩)),
               ("material.ambientStrength", UniformValue.floatValue 0.03),
               ("material.specularColor", UniformValue.vec3Value ⟨0.4, 0.4, 0.4⟩),
               ("material.shininess", UniformValue.floatValue 24)] } } ∧
      r1.m_basicMeshes.draws = r.m_basicMeshes.draws ++
        [{ mesh := Mesh.plane
           uniforms := u ++
              [("material.ambientStrength", UniformValue.floatValue 0.02),
               ("material.specularColor", UniformValue.vec3Value ⟨0.08, 0.08, 0.08⟩),
               ("material.shininess", UniformValue.floatValue 4),
               ("bUseTexture", UniformValue.intValue 1),
               ("bUseTexture", UniformValue.intValue 1),
               ("objectTexture", UniformValue.sampler2DValue 7),
               ("model", UniformValue.mat4Value (SceneManager.SetTransformations.modelView
                  lib ⟨25, 1, 25⟩ 180 0 0 ⟨0, 12, 0⟩))] }] := by
  obtain ⟨⟨⟨p, ids, n⟩, gl, stbi, cout⟩, meshes⟩ := r
  simp only at hsh hfind
  subst hsh
  have hfind2 : SceneManager.FindTextureSlot.loop ids "ceiling" n.toNat 0 = some 7 := hfind
  simp [SceneManager.RenderScene.ceiling, SceneManager.RenderScene.ceilingOverride,
    Renderer.shaderCalls, Renderer.shader, Renderer.SetShaderTexture,
    Renderer.SetTransformations, Renderer.draw, SceneManager.SetShaderTexture,
    SceneManager.SetTransformations, SceneManager.FindTextureSlot, hfind2,
    ShaderManager.setIntValue, ShaderManager.setMat4Value, ShaderManager.setSampler2DValue,
    ShaderManager.setFloatValue, ShaderManager.setVec3Value]

/-- The reference scene up to the ceiling: after the twelve loads all stored
a texture, `"ceiling"` is in slot 7 and `"trim"` in none; the start of
`RenderScene` leaves the default material in force, and the ceiling section
then runs as `ceiling_spec` describes. -/
theorem SceneManager.RenderScene.throughCeiling_spec (lib : glm.ScalarLib ℚ)
    (sh : ShaderManager) (answer : Nat → Option Image × Nat) (gl : GLContext)
    (stbi : List StbiCall) (cout : List ConsoleLine) (meshes : ShapeMeshes)
    (hok : ∀ i : Nat, i < 12 → ∃ img, (answer i).1 = some img ∧
      (img.colorChannels = 3 ∨ img.colorChannels = 4)) :
    ∃ s1 r0 r1 u0,
      SceneManager.LoadSceneTextures answer (System.constructed (some sh) gl stbi cout) =
        some s1 ∧
      s1.scene.FindTextureSlot "ceiling" = some 7 ∧
      s1.scene.FindTextureSlot "trim" = some (-1) ∧
      SceneManager.RenderScene.throughFloor lib { system := s1, m_basicMeshes := meshes } =
        some r0 ∧
      r0.system.scene = { s1.scene with m_pShaderManager := some { uniforms := u0 } } ∧
      UniformValue.held "material.ambientStrength" u0 = some (UniformValue.floatValue 0.025) ∧
      UniformValue.held "material.specularColor" u0 =
        some (UniformValue.vec3Value ⟨0.3, 0.3, 0.3⟩) ∧
      UniformValue.held "material.shininess" u0 = some (UniformValue.floatValue 20) ∧
      SceneManager.RenderScene.ceiling lib r0 = some r1 ∧
      r1.system.scene = { s1.scene with
        m_pShaderManager := some
          { uniforms := u0 ++
              [("material.ambientStrength", UniformValue.floatValue 0.02),
               ("material.specularColor", UniformValue.vec3Value ⟨0.08, 0.08, 0.08⟩),
               ("material.shininess", UniformValue.floatValue 4),
               ("bUseTexture", UniformValue.intValue 1),
               ("bUseTexture", UniformValue.intValue 1),
               ("objectTexture", UniformValue.sampler2DValue 7),
               ("model", UniformValue.mat4Value (SceneManager.SetTransformations.modelView
                  lib ⟨25, 1, 25⟩ 180 0 0 ⟨0, 12, 0⟩)),
               ("material.ambientStrength", UniformValue.floatValue 0.03),
               ("material.specularColor", UniformValue.vec3Value ⟨0.4, 0.4, 0.4⟩),
               ("material.shininess", UniformValue.floatValue 24)] } } := by
  obtain ⟨s1, hload, hscene⟩ :=
    SceneManager.LoadSceneTextures_all_loaded answer sh gl stbi cout hok
  have hwf : s1.scene.WellFormed := by
    rw [hscene]
    exact ⟨by simp, by simp, by simp⟩
  have hsh : s1.scene.m_pShaderManager = some { uniforms := sh.uniforms } := by
    rw [hscene]
  have hfloor : s1.scene.FindTextureSlot "floor" = some 1 := by
    rw [hscene]
    rfl
  have hceiling : s1.scene.FindTextureSlot "ceiling" = some 7 := by
    rw [hscene]
    rfl
  have htrim : s1.scene.FindTextureSlot "trim" = some (-1) := by
    rw [hscene]
    rfl
  obtain ⟨r0, u0, h0, hscene0, ha, hs, hn⟩ :=
    SceneManager.RenderScene.throughFloor_spec lib s1 meshes sh.uniforms hwf hsh hfloor
  have hsh0 : r0.system.scene.m_pShaderManager = some { uniforms := u0 } := by
    rw [hscene0]
  have hceiling0 : r0.system.scene.FindTextureSlot "ceiling" = some 7 := by
    rw [hscene0]
    exact hceiling
  obtain ⟨r1, h1, hscene1, _⟩ :=
    SceneManager.RenderScene.ceiling_spec lib r0 u0 hsh0 hceiling0
  refine ⟨s1, r0, r1, u0, hload, hceiling, htrim, h0, hscene0, ha, hs, hn, h1, ?_⟩
  rw [hscene1, hscene0]

/-- C13, at the failing input: on a freshly constructed object with a shader
manager, the twelve scene textures loaded (each a 64x64 image of 3 channels)
and the start of `RenderScene` run, the three material uniforms hold 0.025,
(0.3, 0.3, 0.3) and 20 right before the ceiling override; after the ceiling
section they hold 0.03, (0.4, 0.4, 0.4) and 24, the constants the `saved…`
locals were initialised with, which are other values. -/
theorem SceneManager.RenderScene_ceiling_restore_mismatch :
    ∃ s1 r0 r1 before after,
      SceneManager.LoadSceneTextures
          (fun i => (some { width := 64, height := 64, colorChannels := 3 }, i + 1))
          (System.constructed (some { uniforms := [] }) GLContext.initial [] []) = some s1 ∧
      SceneManager.RenderScene.throughFloor glm.ScalarLib.series
          { system := s1, m_basicMeshes := { draws := [] } } = some r0 ∧
      r0.system.scene.m_pShaderManager = some { uniforms := before } ∧
      SceneManager.RenderScene.ceiling glm.ScalarLib.series r0 = some r1 ∧
      r1.system.scene.m_pShaderManager = some { uniforms := after } ∧
      UniformValue.held "material.ambientStrength" before =
        some (UniformValue.floatValue 0.025) ∧
      UniformValue.held "material.ambientStrength" after =
        some (UniformValue.floatValue 0.03) ∧
      UniformValue.held "material.specularColor" before =
        some (UniformValue.vec3Value ⟨0.3, 0.3, 0.3⟩) ∧
      UniformValue.held "material.specularColor" after =
        some (UniformValue.vec3Value ⟨0.4, 0.4, 0.4⟩) ∧
      UniformValue.held "material.shininess" before = some (UniformValue.floatValue 20) ∧
      UniformValue.held "material.shininess" after = some (UniformValue.floatValue 24) ∧
      UniformValue.floatValue 0.025 ≠ UniformValue.floatValue 0.03 ∧
      UniformValue.vec3Value ⟨0.3, 0.3, 0.3⟩ ≠ UniformValue.vec3Value ⟨0.4, 0.4, 0.4⟩ ∧
      UniformValue.floatValue 20 ≠ UniformValue.floatValue 24 := by
  obtain ⟨s1, r0, r1, u0, hload, _, _, h0, hscene0, ha, hs, hn, h1, hscene1⟩ :=
    SceneManager.RenderScene.throughCeiling_spec glm.ScalarLib.series { uniforms := [] }
      (fun i => (some { width := 64, height := 64, colorChannels := 3 }, i + 1))
      GLContext.initial [] [] { draws := [] } (fun _ _ => ⟨_, rfl, Or.inl rfl⟩)
  refine ⟨s1, r0, r1, u0, _, hload, h0, by rw [hscene0], h1, by rw [hscene1], ha, ?_, hs, ?_,
    hn, ?_, ?_, ?_, ?_⟩
  · simp [UniformValue.held_append, UniformValue.held_cons, UniformValue.held_nil]
  · simp [UniformValue.held_append, UniformValue.held_cons, UniformValue.held_nil]
  · simp [UniformValue.held_append, UniformValue.held_cons, UniformValue.held_nil]
  · intro h
    have h2 := UniformValue.floatValue.inj h
    norm_num at h2
  · intro h
    have h2 := congrArg glm.vec3.x (UniformValue.vec3Value.inj h)
    norm_num at h2
  · intro h
    have h2 := UniformValue.floatValue.inj h
    norm_num at h2

/-- C14. On a freshly constructed object with a shader manager, when the
twelve loads of `LoadSceneTextures` all store a texture: `"ceiling"` is in
slot 7 and `"trim"` in no slot; `SetShaderTexture("trim")` changes nothing on
any state with that slot table; at the start of the trim section of
`RenderScene` the sampler `objectTexture` holds 7; the trim section writes
`bUseTexture = 1` and the four `model` matrices and no sampler; and each of
the four boxes is drawn with `bUseTexture = 1` and `objectTexture = 7`. -/
theorem SceneManager.RenderScene_trim_keeps_last_texture (lib : glm.ScalarLib ℚ)
    (sh : ShaderManager) (answer : Nat → Option Image × Nat) (gl : GLContext)
    (stbi : List StbiCall) (cout : List ConsoleLine) (meshes : ShapeMeshes)
    (hok : ∀ i : Nat, i < 12 → ∃ img, (answer i).1 = some img ∧
      (img.colorChannels = 3 ∨ img.colorChannels = 4)) :
    ∃ s1 r0 r1 r u b1 b2 b3 b4,
      SceneManager.LoadSceneTextures answer (System.constructed (some sh) gl stbi cout) =
        some s1 ∧
      s1.scene.FindTextureSlot "ceiling" = some 7 ∧
      s1.scene.FindTextureSlot "trim" = some (-1) ∧
      (∀ t : System, t.scene.m_textureIDs = s1.scene.m_textureIDs →
        t.scene.m_loadedTextures = s1.scene.m_loadedTextures →
        SceneManager.SetShaderTexture "trim" t = some t) ∧
      SceneManager.RenderScene.throughFloor lib { system := s1, m_basicMeshes := meshes } =
        some r0 ∧
      SceneManager.RenderScene.ceiling lib r0 = some r1 ∧
      SceneManager.RenderScene.trim lib r1 = some r ∧
      SceneManager.RenderScene.throughTrim lib { system := s1, m_basicMeshes := meshes } =
        some r ∧
      r1.system.scene.m_pShaderManager = some { uniforms := u } ∧
      UniformValue.held "objectTexture" u = some (UniformValue.sampler2DValue 7) ∧
      (∃ m1 m2 m3 m4, r.system.scene.m_pShaderManager = some
        { uniforms := u ++
            [("bUseTexture", UniformValue.intValue 1), ("model", UniformValue.mat4Value m1),
             ("model", UniformValue.mat4Value m2), ("model", UniformValue.mat4Value m3),
             ("model", UniformValue.mat4Value m4)] }) ∧
      r.m_basicMeshes.draws = r1.m_basicMeshes.draws ++ [b1, b2, b3, b4] ∧
      ∀ b ∈ [b1, b2, b3, b4], b.mesh = Mesh.box ∧
        UniformValue.held "bUseTexture" b.uniforms = some (UniformValue.intValue 1) ∧
        UniformValue.held "objectTexture" b.uniforms = some (UniformValue.sampler2DValue 7) := by
  obtain ⟨s1, r0, r1, u0, hload, hceiling, htrim, h0, _, _, _, _, h1, hscene1⟩ :=
    SceneManager.RenderScene.throughCeiling_spec lib sh answer gl stbi cout meshes hok
  have hsh1 := congrArg SceneManager.m_pShaderManager hscene1
  have htrim1 : r1.system.scene.FindTextureSlot "trim" = some (-1) := by
    rw [hscene1]
    exact htrim
  have ht := SceneManager.RenderScene.trim_eq lib r1 _ hsh1 htrim1
  refine ⟨s1, r0, r1, _, _, _, _, _, _, hload, hceiling, htrim, ?_, h0, h1, ht, ?_, hsh1, ?_,
    ⟨_, _, _, _, rfl⟩, rfl, ?_⟩
  · intro t hids hcount
    cases hp : t.scene.m_pShaderManager with
    | none => simp only [SceneManager.SetShaderTexture, hp]
    | some sh2 =>
      have hfind : t.scene.FindTextureSlot "trim" = some (-1) := by
        simp only [SceneManager.FindTextureSlot, hids, hcount]
        exact htrim
      rw [SceneManager.SetShaderTexture_eq "trim" t sh2 (-1) hp hfind]
      simp
  · simp only [SceneManager.RenderScene.throughTrim, h0, h1, ht]
  · simp [UniformValue.held_append, UniformValue.held_cons, UniformValue.held_nil]
  · intro b hb
    simp only [List.mem_cons, List.mem_singleton, List.not_mem_nil, or_false] at hb
    rcases hb with h | h | h | h <;> subst h <;>
      refine ⟨rfl, ?_, ?_⟩ <;>
      simp [UniformValue.held_append, UniformValue.held_cons, UniformValue.held_nil]

/-- C14 at a concrete input: twelve 64x64 images of 3 channels, texture names
1 to 12, the series library, an empty uniform log and no earlier draw. -/
theorem SceneManager.RenderScene_trim_keeps_last_texture_witness :
    ∃ s1 r, SceneManager.LoadSceneTextures
          (fun i => (some { width := 64, height := 64, colorChannels := 3 }, i + 1))
          (System.constructed (some { uniforms := [] }) GLContext.initial [] []) = some s1 ∧
      s1.scene.FindTextureSlot "trim" = some (-1) ∧
      SceneManager.RenderScene.throughTrim glm.ScalarLib.series
          { system := s1, m_basicMeshes := { draws := [] } } = some r :=
  (SceneManager.RenderScene_trim_keeps_last_texture glm.ScalarLib.series { uniforms := [] }
    (fun i => (some { width := 64, height := 64, colorChannels := 3 }, i + 1))
    GLContext.initial [] [] { draws := [] } (fun _ _ => ⟨_, rfl, Or.inl rfl⟩)).elim
    (fun s1 h1 => h1.elim (fun _ h2 => h2.elim (fun _ h3 => h3.elim (fun r h4 =>
      h4.elim (fun _ h5 => h5.elim (fun _ h6 => h6.elim (fun _ h7 => h7.elim (fun _ h8 =>
        h8.elim (fun _ h9 => ⟨s1, r, h9.1, h9.2.2.1, h9.2.2.2.2.2.2.2.1⟩)))))))))
